import Mathlib

/-!
# HeishaMon feature board: S0 pulse metering and 1-wire temperature sampling

A shallow embedding of `src/HeishaMon/featureboard.cpp`.

Conventions of the embedding.

* `unsigned long` and `unsigned int` are 32 bits wide on the ESP8266; the
  timestamps (`millis()`, `lastPulse`, `nextReport`, `lastgoodtime`) are natural
  numbers and every subtraction and addition on them is taken modulo `2^32`
  (`usub`, `uadd`).
* `double`/`float` values are rationals; `none` stands for the non-finite
  result of a division by zero.  In the S0 meter the integer results the code
  derives from doubles (`watt`, `calcMaxWatt`) and the regime test do not
  depend on binary rounding: for integers `0 < a`, `0 < b` the quotient
  `3600000000 / (a * b)` is either an integer or at least `1 / (a * b)` away
  from one, far more than the rounding error of two double divisions; these
  expressions are therefore written with exact quotients.
* Where binary rounding decides the outcome, the temperature band of lines 83
  and 84 and the product of line 176, every operation is rounded as IEEE 754
  does (`toFloat`, `toDouble`: round to nearest, ties to even, subnormals
  included).  None of the values rounded there can reach the overflow
  threshold of its format, so the roundings have no upper exponent bound.
* Converting a non-finite or out-of-range double to an unsigned integer has no
  defined result in C++; the embedding takes the value the platform yields as
  the parameter `ovf`, so every function stays total.
* The header `featureboard.h` is not part of the sources; the field lists of
  the three structs are read off their uses in `featureboard.cpp`.
-/

namespace HeishaMon

/-! ## Machine arithmetic -/

/-- Unsigned 32-bit subtraction `a - b` (wraps around). -/
def usub (a b : Nat) : Nat := (a + (4294967296 - b % 4294967296)) % 4294967296

/-- Unsigned 32-bit addition `a + b` (wraps around). -/
def uadd (a b : Nat) : Nat := (a + b) % 4294967296

/-- Double division `x / n` by an unsigned integer `n`.  All numerators in this
file are positive, so a zero divisor gives `+inf`, written `none`. -/
def ddiv (x : Option ℚ) (n : Nat) : Option ℚ :=
  match x with
  | none => none
  | some q => if n = 0 then none else some (q / (n : ℚ))

/-- Double product `n * x` of an unsigned integer and a double (`n * inf` is
`inf` or `NaN`, both non-finite). -/
def dmul (n : Nat) (x : Option ℚ) : Option ℚ :=
  match x with
  | none => none
  | some q => some ((n : ℚ) * q)

/-- Comparison `w < x` of an unsigned integer with a double; `w < +inf` holds. -/
def dlt (w : Nat) (x : Option ℚ) : Bool :=
  match x with
  | none => true
  | some q => decide ((w : ℚ) < q)

/-- Conversion of a double to a 32-bit unsigned integer: truncation when the
value is in range, the platform value `ovf` otherwise. -/
def toUnsigned (ovf : Nat) (x : Option ℚ) : Nat :=
  match x with
  | none => ovf
  | some q => if -1 < q ∧ q < 4294967296 then (Int.floor q).toNat else ovf

/-- Conversion `int(x)` of a double to a 32-bit signed integer: truncation
toward zero when the result is in range (`int(-5.0)` is `-5`), the platform
value `ovf` otherwise. -/
def toInt (ovf : Nat) (x : Option ℚ) : Int :=
  match x with
  | none => (ovf : Int)
  | some q =>
      if -2147483649 < q ∧ q < 2147483648 then
        (if 0 ≤ q then Int.floor q else Int.ceil q)
      else (ovf : Int)

/-- Modelled from the spec: `pulse_count` is a non-negative integer; the C type
of `pulses` is declared in the missing header `featureboard.h`.  An `int`
assigned to the counter is stored as C stores it in an unsigned 32-bit
variable, modulo `2^32`; a non-negative `int` is stored unchanged. -/
def toCount (z : Int) : Nat := (z % 4294967296).toNat

/-- Rounding of a rational to the nearest integer, a tie going to the even one. -/
def roundEven (x : ℚ) : Int :=
  if x - Int.floor x < 1 / 2 then Int.floor x
  else if 1 / 2 < x - Int.floor x then Int.floor x + 1
  else if Int.floor x % 2 = 0 then Int.floor x else Int.floor x + 1

/-- IEEE 754 rounding to nearest, ties to even, into the binary format with `p`
significant bits and least exponent `emin` (subnormals included): the last
place of `q` is `2^e` with `e = max (floor (log2 |q|) - (p - 1)) emin`. -/
def roundBinary (p : Nat) (emin : Int) (q : ℚ) : ℚ :=
  (roundEven (q / (2 : ℚ) ^ (max (Int.log 2 |q| - ((p : Int) - 1)) emin)) : ℚ) *
    (2 : ℚ) ^ (max (Int.log 2 |q| - ((p : Int) - 1)) emin)

/-- Rounding to a `double` (binary64: 53 significant bits, least exponent -1074). -/
def toDouble (q : ℚ) : ℚ := roundBinary 53 (-1074) q

/-- Rounding to a `float` (binary32: 24 significant bits, least exponent -149). -/
def toFloat (q : ℚ) : ℚ := roundBinary 24 (-149) q

/-- The values of the binary format with `p` significant bits and least
exponent `emin`: `M * 2^k` with `|M| < 2^p` and `emin ≤ k`. -/
def IsBinary (p : Nat) (emin : Int) (y : ℚ) : Prop :=
  ∃ M k : Int, emin ≤ k ∧ |M| < 2 ^ p ∧ y = (M : ℚ) * (2 : ℚ) ^ k

/-- The C assignment expression `x = v`: the variable takes the value `v`, and
`v` is also the value of the expression. -/
def assign (_x v : Int) : Int := v

/-! ## S0 pulse meter -/

/-- The constant `MINREPORTEDS0TIME`: S0 watts are not reported faster than this (ms). -/
def MINREPORTEDS0TIME : Nat := 5000

/-- Modelled from the spec: the constant `NUM_S0_COUNTERS` is defined in the missing
header `featureboard.h`; the channel set is ports 1 and 2 (`new_pulse_s0[2]`,
`onS0Pulse1`, `onS0Pulse2`). -/
def NUM_S0_COUNTERS : Nat := 2

/-- Modelled from the spec: the declaration of `s0SettingsStruct` is in the
missing header `featureboard.h`.  Fields as used in `featureboard.cpp`; the
calibration constant and the standby interval are non-negative integers. -/
structure s0SettingsStruct where
  gpiopin : Nat
  ppkwh : Nat
  lowerPowerInterval : Nat
  sum_s0_watthour : Bool
deriving DecidableEq

/-- Modelled from the spec: the declaration of `s0DataStruct` is in the missing
header `featureboard.h`.  `pulses` is the spec's non-negative integer
`pulse_count`; `watt` is printed with `%u` (unsigned integer); `lastPulse` and
`nextReport` hold 32-bit `millis()` timestamps. -/
structure s0DataStruct where
  pulses : Nat
  watt : Nat
  lastPulse : Nat
  nextReport : Nat
deriving DecidableEq

/-- The two values `s0Loop` publishes for a channel: `Watthour` (a float) and
`watt` (an unsigned integer). -/
structure S0Report where
  Watthour : Option ℚ
  watt : Nat
deriving DecidableEq

/-- The state right after boot: the zero-initialised global `actS0Data[i]` with
`nextReport` set by `initS0Sensors` at time `boot`. -/
def s0Initial (boot : Nat) : s0DataStruct :=
  { pulses := 0, watt := 0, lastPulse := 0, nextReport := uadd boot MINREPORTEDS0TIME }

/-- The double expression `(3600000000.0 / interval) / ppkwh` converted to an
unsigned integer (lines 206 and 220). -/
def wattOf (ovf interval ppkwh : Nat) : Nat :=
  toUnsigned ovf (ddiv (ddiv (some 3600000000) interval) ppkwh)

/-- The test `watt < ((3600000.0 / ppkwh) / lowerPowerInterval)` of line 222. -/
def inStandby (cfg : s0SettingsStruct) (watt : Nat) : Bool :=
  dlt watt (ddiv (ddiv (some 3600000) cfg.ppkwh) cfg.lowerPowerInterval)

/-- The edge-handling step of `s0Loop` for one channel (lines 199 to 214):
`new_pulse` is the latched timestamp `new_pulse_s0[i]`. -/
def s0Edge (cfg : s0SettingsStruct) (ovf millisThisLoop new_pulse : Nat)
    (d : s0DataStruct) : s0DataStruct :=
  let pulseInterval := usub new_pulse d.lastPulse
  if pulseInterval > 50 then
    let d1 : s0DataStruct :=
      if d.lastPulse > 0 then { d with watt := wattOf ovf pulseInterval cfg.ppkwh } else d
    let d2 : s0DataStruct := { d1 with lastPulse := new_pulse }
    let d3 : s0DataStruct := { d2 with pulses := d2.pulses + 1 }
    if usub d3.nextReport millisThisLoop > MINREPORTEDS0TIME then
      { d3 with nextReport := 0 }
    else d3
  else d

/-- The value `lastePulseInterval` of line 219, the divisor of `calcMaxWatt`. -/
def lastePulseInterval (millisThisLoop : Nat) (d : s0DataStruct) : Nat :=
  usub millisThisLoop d.lastPulse

/-- The value `calcMaxWatt` of line 220. -/
def calcMaxWatt (cfg : s0SettingsStruct) (ovf millisThisLoop : Nat) (d : s0DataStruct) : Nat :=
  wattOf ovf (usub millisThisLoop d.lastPulse) cfg.ppkwh

/-- The report step of `s0Loop` for one channel (lines 217 to 251): the new
state and the report published, if any. -/
def s0Report (cfg : s0SettingsStruct) (ovf millisThisLoop : Nat)
    (d : s0DataStruct) : s0DataStruct × Option S0Report :=
  if millisThisLoop > d.nextReport then
    let cmw := calcMaxWatt cfg ovf millisThisLoop d
    let d1 : s0DataStruct :=
      if inStandby cfg d.watt then
        let e : s0DataStruct :=
          { d with nextReport := uadd millisThisLoop (1000 * cfg.lowerPowerInterval) }
        if e.watt / 2 > cmw then { e with watt := cmw / 2 } else e
      else
        let e : s0DataStruct := { d with nextReport := uadd millisThisLoop MINREPORTEDS0TIME }
        if e.watt > cmw then { e with watt := cmw } else e
    let Watthour := dmul d1.pulses (ddiv (some 1000) cfg.ppkwh)
    let d2 : s0DataStruct := if !cfg.sum_s0_watthour then { d1 with pulses := 0 } else d1
    (d2, some { Watthour := Watthour, watt := d2.watt })
  else (d, none)

/-- One iteration of the channel loop of `s0Loop` (lines 198 to 252). -/
def s0Channel (cfg : s0SettingsStruct) (ovf millisThisLoop new_pulse : Nat)
    (d : s0DataStruct) : s0DataStruct × Option S0Report :=
  s0Report cfg ovf millisThisLoop (s0Edge cfg ovf millisThisLoop new_pulse d)

/-- The function `s0SettingsCorrupt` (lines 180 to 189): `true` when it logs and
calls `ESP.restart()`, that is when some channel differs in `gpiopin`, `ppkwh`
or `lowerPowerInterval`. -/
def s0SettingsCorrupt (s0Settings actS0Settings : List s0SettingsStruct) : Bool :=
  (List.range NUM_S0_COUNTERS).any fun i =>
    match s0Settings[i]?, actS0Settings[i]? with
    | some a, some b =>
        decide (a.gpiopin ≠ b.gpiopin) || decide (a.ppkwh ≠ b.ppkwh) ||
          decide (a.lowerPowerInterval ≠ b.lowerPowerInterval)
    | _, _ => false

/-- The channel loop of `s0Loop` from index `i` on: the new channel states and
the reports published, tagged with the port number `i + 1`. -/
def s0Channels (ovf millisThisLoop : Nat) (new_pulse_s0 : Nat → Nat) :
    Nat → List s0SettingsStruct → List s0DataStruct → List s0DataStruct × List (Nat × S0Report)
  | i, cfg :: cfgs, d :: ds =>
      let r := s0Channel cfg ovf millisThisLoop (new_pulse_s0 i) d
      let rest := s0Channels ovf millisThisLoop new_pulse_s0 (i + 1) cfgs ds
      (r.1 :: rest.1, (r.2.map fun x => (i + 1, x)).toList ++ rest.2)
  | _, _, ds => (ds, [])

/-- Outcome of one call of `s0Loop`. -/
inductive S0Outcome where
  | restart
  | done (actS0Data : List s0DataStruct) (published : List (Nat × S0Report))

/-- The function `s0Loop` (lines 191 to 253).  `ESP.restart()` hands control to
the SDK and does not come back to the caller, so a call that finds the
settings corrupt ends before the channel loop. -/
def s0Loop (s0Settings actS0Settings : List s0SettingsStruct) (ovf millisThisLoop : Nat)
    (new_pulse_s0 : Nat → Nat) (actS0Data : List s0DataStruct) : S0Outcome :=
  if s0SettingsCorrupt s0Settings actS0Settings then S0Outcome.restart
  else
    let r := s0Channels ovf millisThisLoop new_pulse_s0 0 actS0Settings actS0Data
    S0Outcome.done r.1 r.2

/-- The measurements published by a call of `s0Loop`; none when the device restarts. -/
def S0Outcome.published : S0Outcome → List (Nat × S0Report)
  | S0Outcome.restart => []
  | S0Outcome.done _ ps => ps

/-- The function `restore_s0_Watthour` (lines 174 to 177).  The condition
`(s0Port = 0) || (s0Port = 1)` is made of two assignments: the first has the
value 0 (false), so the second is evaluated, has the value 1 (true) and leaves
`s0Port` equal to 1.  `watthour` is a float; `ppkwh / 1000.0` is a double
quotient and its product with `watthour` a double product, each rounded,
before `int(...)` truncates. -/
def restore_s0_Watthour (actS0Settings : List s0SettingsStruct) (ovf : Nat) (s0Port : Int)
    (watthour : ℚ) (actS0Data : List s0DataStruct) : List s0DataStruct :=
  let s0Port1 := assign s0Port 0
  let s0Port2 := if s0Port1 ≠ 0 then s0Port1 else assign s0Port1 1
  if s0Port1 ≠ 0 ∨ s0Port2 ≠ 0 then
    let idx := (s0Port2 - 1).toNat
    match actS0Settings[idx]?, actS0Data[idx]? with
    | some cfg, some d =>
        actS0Data.set idx
          { d with pulses :=
              toCount (toInt ovf
                (some (toDouble (watthour * toDouble ((cfg.ppkwh : ℚ) / 1000))))) }
    | _, _ => actS0Data
  else actS0Data

/-! ## 1-wire temperature sampler -/

/-- The constant `MAXTEMPDIFFPERSEC` (0.5, a double): allowed temperature difference
per second. -/
def MAXTEMPDIFFPERSEC : ℚ := 1 / 2

/-- Modelled from the spec: the declaration of `dallasDataStruct` is in the
missing header `featureboard.h`.  `temperature` is the last good value
(a float, `-127` when unset), `lastgoodtime` its timestamp, `address` the
probe identifier. -/
structure dallasDataStruct where
  temperature : ℚ
  lastgoodtime : Nat
  address : String
deriving DecidableEq

/-- What `readNewDallasTemp` sends out: three kinds of log line and the
MQTT publication. -/
inductive DallasEvent where
  | offline (address : String)
  | filtering (address : String) (temp last : ℚ)
  | received (address : String) (temp : ℚ)
  | publish (address : String) (temp : ℚ)
deriving DecidableEq

/-- The inputs of one iteration of the probe loop: the value of
`DS18B20.getTempC` and the two readings of `millis()` (lines 83 and 87). -/
structure ProbeRead where
  temp : ℚ
  millis83 : Nat
  millis87 : Nat

/-- The value `allowedtempdiff` of line 83: the elapsed time divided by `1000.0`
and multiplied by `MAXTEMPDIFFPERSEC` in double arithmetic, then stored in a
float. -/
def allowedtempdiff (millis83 : Nat) (d : dallasDataStruct) : ℚ :=
  toFloat (toDouble
    (toDouble (((usub millis83 d.lastgoodtime : Nat) : ℚ) / 1000) * MAXTEMPDIFFPERSEC))

/-- The filtering test of line 84.  `temp`, `temperature` and `allowedtempdiff`
are floats, so the sum and the difference are float operations; the
comparisons themselves are exact. -/
def dallasFiltered (r : ProbeRead) (d : dallasDataStruct) : Bool :=
  decide (d.temperature ≠ -127 ∧
    (r.temp > toFloat (d.temperature + allowedtempdiff r.millis83 d) ∨
      r.temp < toFloat (d.temperature - allowedtempdiff r.millis83 d)))

/-- The grid of the DS18B20 readings: the multiples of 1/128 between -256 and
256, a 16-bit raw count in units of 1/128 degree Celsius.  Every such value is
a float.  The sensor library is not part of the sources; the predicate only
serves as a hypothesis on the readings. -/
def IsDallasReading (x : ℚ) : Prop := ∃ n : Int, |n| ≤ 32768 ∧ x = (n : ℚ) / 128

/-- One iteration of the probe loop of `readNewDallasTemp` (lines 79 to 95). -/
def dallasProbe (updatenow : Bool) (r : ProbeRead) (d : dallasDataStruct) :
    dallasDataStruct × List DallasEvent :=
  if r.temp < -120 then (d, [DallasEvent.offline d.address])
  else
    if dallasFiltered r d = true then
      (d, [DallasEvent.filtering d.address r.temp d.temperature])
    else
      let d1 : dallasDataStruct := { d with lastgoodtime := r.millis87 }
      if updatenow = true ∨ d1.temperature ≠ r.temp then
        let d2 : dallasDataStruct := { d1 with temperature := r.temp }
        (d2, [DallasEvent.received d2.address d2.temperature,
              DallasEvent.publish d2.address d2.temperature])
      else (d1, [])

/-- The probe loop of `readNewDallasTemp` from index `i` on. -/
def dallasProbes (updatenow : Bool) (reads : Nat → ProbeRead) :
    Nat → List dallasDataStruct → List dallasDataStruct × List DallasEvent
  | _, [] => ([], [])
  | i, d :: ds =>
      let r := dallasProbe updatenow (reads i) d
      let rest := dallasProbes updatenow reads (i + 1) ds
      (r.1 :: rest.1, r.2 ++ rest.2)

/-- The globals `nextalldatatime_dallas` and `updateAllDallasTime`. -/
structure DallasTimer where
  nextalldatatime_dallas : Nat
  updateAllDallasTime : Nat
deriving DecidableEq

/-- The function `readNewDallasTemp` (lines 67 to 97); `millis73` and `millis75`
are the readings of `millis()` on those lines. -/
def readNewDallasTemp (millis73 millis75 : Nat) (reads : Nat → ProbeRead) (g : DallasTimer)
    (actDallasData : List dallasDataStruct) :
    DallasTimer × List dallasDataStruct × List DallasEvent :=
  let updatenow : Bool := decide (millis73 > g.nextalldatatime_dallas)
  let g1 : DallasTimer :=
    if updatenow then
      { g with nextalldatatime_dallas := uadd millis75 (1000 * g.updateAllDallasTime) }
    else g
  let r := dallasProbes updatenow reads 0 actDallasData
  (g1, r.1, r.2)

/-! ## Lemmas on the machine arithmetic -/

/-- An unsigned difference is a 32-bit value. -/
theorem usub_lt (a b : Nat) : usub a b < 4294967296 := by
  unfold usub; omega

/-- Truncating the double quotient `(c / a) / b` gives the iterated integer
quotient, whatever the platform value `ovf`: for positive divisors the value
is finite and in range. -/
theorem toUnsigned_quot (ovf c a b : Nat) (hc : c < 4294967296) (ha : 0 < a) (hb : 0 < b) :
    toUnsigned ovf (ddiv (ddiv (some (c : ℚ)) a) b) = c / a / b := by
  have ha' : a ≠ 0 := Nat.pos_iff_ne_zero.mp ha
  have hb' : b ≠ 0 := Nat.pos_iff_ne_zero.mp hb
  have hq0 : (0 : ℚ) ≤ (c : ℚ) / a / b := by positivity
  have hq1 : (c : ℚ) / a / b < 4294967296 := by
    have h1 : (c : ℚ) / a / b ≤ c := by
      rw [div_div]
      apply div_le_self (by positivity)
      have : (1 : ℚ) ≤ a := by exact_mod_cast ha
      have : (1 : ℚ) ≤ b := by exact_mod_cast hb
      nlinarith
    have h2 : (c : ℚ) < 4294967296 := by exact_mod_cast hc
    linarith
  simp only [ddiv, ha', hb', if_false, toUnsigned]
  rw [if_pos ⟨by linarith, hq1⟩, Int.floor_toNat, Nat.floor_div_nat, Nat.floor_div_eq_div]

/-- The watt formula of lines 206 and 220 on integers. -/
theorem wattOf_eq (ovf a b : Nat) (ha : 0 < a) (hb : 0 < b) :
    wattOf ovf a b = 3600000000 / a / b := by
  have h := toUnsigned_quot ovf 3600000000 a b (by norm_num) ha hb
  simpa [wattOf] using h

/-! ## Lemmas on binary rounding -/

/-- Rounding to an integer never passes an integer above the argument. -/
theorem roundEven_le (x : ℚ) (N : Int) (h : x ≤ (N : ℚ)) : roundEven x ≤ N := by
  have hf : Int.floor x ≤ N := by
    have := Int.floor_le x
    exact_mod_cast (le_trans this h)
  have hfl := Int.floor_le x
  unfold roundEven
  split_ifs with h1 h2 h3
  · exact hf
  · by_contra hc
    push_neg at hc
    have hN : N = Int.floor x := le_antisymm (by omega) hf
    have : x ≤ (Int.floor x : ℚ) := by rw [← hN]; exact h
    linarith
  · exact hf
  · by_contra hc
    push_neg at hc
    have hN : N = Int.floor x := le_antisymm (by omega) hf
    have : x ≤ (Int.floor x : ℚ) := by rw [← hN]; exact h
    have h12 : x - (Int.floor x : ℚ) = 1 / 2 := le_antisymm (not_lt.mp h2) (not_lt.mp h1)
    linarith

/-- Rounding to an integer never passes an integer below the argument. -/
theorem le_roundEven (x : ℚ) (N : Int) (h : (N : ℚ) ≤ x) : N ≤ roundEven x := by
  have hf : N ≤ Int.floor x := Int.le_floor.mpr h
  unfold roundEven
  split_ifs <;> omega

/-- A value less than one half away from an integer is rounded to it. -/
theorem roundEven_eq_of_abs_lt (x : ℚ) (n : Int) (h : |x - n| < 1 / 2) : roundEven x = n := by
  have h' := abs_lt.mp h
  by_cases hx : (n : ℚ) ≤ x
  · have hfl : Int.floor x = n := by
      rw [Int.floor_eq_iff]
      constructor
      · exact hx
      · linarith [h'.2]
    unfold roundEven
    rw [hfl, if_pos (by linarith [h'.2])]
  · push_neg at hx
    have hfl : Int.floor x = n - 1 := by
      rw [Int.floor_eq_iff]
      push_cast
      constructor
      · linarith [h'.1]
      · linarith
    unfold roundEven
    rw [hfl]
    push_cast
    rw [if_neg (by linarith [h'.1]), if_pos (by linarith [h'.1])]
    ring

/-- The scale of the last place is positive. -/
theorem two_zpow_pos (e : Int) : (0 : ℚ) < (2 : ℚ) ^ e := zpow_pos (by norm_num) e

/-- A value of the format whose exponent is below the one of the last place of
`q` is smaller than `q` in magnitude. -/
theorem IsBinary_abs_lt (p : Nat) (q : ℚ) (M k : Int) (hq : q ≠ 0)
    (hM : |M| < 2 ^ p) (hk : k < Int.log 2 |q| - ((p : Int) - 1)) :
    |(M : ℚ) * (2 : ℚ) ^ k| < (2 : ℚ) ^ (Int.log 2 |q|) ∧ (2 : ℚ) ^ (Int.log 2 |q|) ≤ |q| := by
  have hqpos : 0 < |q| := abs_pos.mpr hq
  have hL : (2 : ℚ) ^ (Int.log 2 |q|) ≤ |q| := by
    have := Int.zpow_log_le_self (by norm_num : 1 < 2) hqpos
    simpa using this
  refine ⟨?_, hL⟩
  have hMq : |(M : ℚ)| < (2 : ℚ) ^ (p : Int) := by
    have : ((|M| : Int) : ℚ) < ((2 ^ p : Int) : ℚ) := by exact_mod_cast hM
    rw [zpow_natCast]
    simpa using this
  have hk2 : (2 : ℚ) ^ k ≤ (2 : ℚ) ^ (Int.log 2 |q| - (p : Int)) :=
    zpow_le_zpow_right₀ (by norm_num) (by omega)
  rw [abs_mul, abs_of_pos (two_zpow_pos k)]
  calc |(M : ℚ)| * (2 : ℚ) ^ k
      < (2 : ℚ) ^ (p : Int) * (2 : ℚ) ^ k := by
        exact mul_lt_mul_of_pos_right hMq (two_zpow_pos k)
    _ ≤ (2 : ℚ) ^ (p : Int) * (2 : ℚ) ^ (Int.log 2 |q| - (p : Int)) := by
        exact mul_le_mul_of_nonneg_left hk2 (two_zpow_pos _).le
    _ = (2 : ℚ) ^ (Int.log 2 |q|) := by
        rw [← zpow_add₀ (by norm_num)]
        congr 1
        ring

/-- A value of the format at or above the exponent of the last place is an
integer multiple of the last place. -/
theorem IsBinary_multiple (M k e : Int) (h : e ≤ k) :
    ∃ N : Int, (M : ℚ) * (2 : ℚ) ^ k = (N : ℚ) * (2 : ℚ) ^ e := by
  obtain ⟨j, hj⟩ : ∃ j : Nat, k = e + (j : Int) := ⟨(k - e).toNat, by omega⟩
  refine ⟨M * 2 ^ j, ?_⟩
  rw [hj, zpow_add₀ (by norm_num), zpow_natCast]
  push_cast
  ring

/-- Rounding never crosses a value of the format from below: `q ≤ y` gives
`roundBinary q ≤ y`. -/
theorem roundBinary_le (p : Nat) (emin : Int) (q y : ℚ) (hp : 1 ≤ p)
    (hy : IsBinary p emin y) (h : q ≤ y) : roundBinary p emin q ≤ y := by
  obtain ⟨M, k, hk, hM, rfl⟩ := hy
  unfold roundBinary
  by_cases hke : max (Int.log 2 |q| - ((p : Int) - 1)) emin ≤ k
  · obtain ⟨N, hN⟩ := IsBinary_multiple M k _ hke
    rw [hN]
    apply mul_le_mul_of_nonneg_right _ (two_zpow_pos _).le
    have hx : q / (2 : ℚ) ^ (max (Int.log 2 |q| - ((p : Int) - 1)) emin) ≤ (N : ℚ) := by
      rw [div_le_iff₀ (two_zpow_pos _), ← hN]
      exact h
    exact_mod_cast roundEven_le _ N hx
  · push_neg at hke
    have hlt : emin < max (Int.log 2 |q| - ((p : Int) - 1)) emin := lt_of_le_of_lt hk hke
    have he : max (Int.log 2 |q| - ((p : Int) - 1)) emin = Int.log 2 |q| - ((p : Int) - 1) := by
      rcases max_cases (Int.log 2 |q| - ((p : Int) - 1)) emin with ⟨h1, _⟩ | ⟨h1, _⟩
      · exact h1
      · rw [h1] at hlt; exact absurd hlt (lt_irrefl _)
    rw [he] at hke ⊢
    by_cases hq : q = 0
    · subst hq
      simp only [zero_div]
      have h0 : roundEven 0 = 0 := roundEven_eq_of_abs_lt 0 0 (by norm_num)
      rw [h0]
      simpa using h
    · obtain ⟨hy1, hy2⟩ := IsBinary_abs_lt p q M k hq hM hke
      have hneg : q < 0 := by
        by_contra hc
        push_neg at hc
        have hq1 : |q| = q := abs_of_nonneg hc
        have := le_abs_self ((M : ℚ) * (2 : ℚ) ^ k)
        linarith
      have hqle : q ≤ -(2 : ℚ) ^ (Int.log 2 |q|) := by
        have hq1 : |q| = -q := abs_of_neg hneg
        linarith
      obtain ⟨j, hj⟩ : ∃ j : Nat, (p : Int) - 1 = (j : Int) := ⟨p - 1, by omega⟩
      have hsplit : (2 : ℚ) ^ (Int.log 2 |q|) =
          ((2 ^ j : Int) : ℚ) * (2 : ℚ) ^ (Int.log 2 |q| - ((p : Int) - 1)) := by
        rw [hj]
        push_cast
        rw [← zpow_natCast, ← zpow_add₀ (by norm_num)]
        congr 1
        ring
      have hx : q / (2 : ℚ) ^ (Int.log 2 |q| - ((p : Int) - 1)) ≤ ((-(2 ^ j) : Int) : ℚ) := by
        rw [div_le_iff₀ (two_zpow_pos _)]
        push_cast
        push_cast at hsplit
        rw [neg_mul, ← hsplit]
        exact hqle
      have hr := roundEven_le _ _ hx
      have hr' : (roundEven (q / (2 : ℚ) ^ (Int.log 2 |q| - ((p : Int) - 1))) : ℚ) ≤
          ((-(2 ^ j) : Int) : ℚ) := by exact_mod_cast hr
      have hv : (roundEven (q / (2 : ℚ) ^ (Int.log 2 |q| - ((p : Int) - 1))) : ℚ) *
          (2 : ℚ) ^ (Int.log 2 |q| - ((p : Int) - 1)) ≤ -(2 : ℚ) ^ (Int.log 2 |q|) := by
        have := mul_le_mul_of_nonneg_right hr' (two_zpow_pos (Int.log 2 |q| - ((p : Int) - 1))).le
        rw [hsplit]
        push_cast at this ⊢
        linarith
      have := neg_abs_le ((M : ℚ) * (2 : ℚ) ^ k)
      linarith

/-- Rounding never crosses a value of the format from above: `y ≤ q` gives
`y ≤ roundBinary q`. -/
theorem le_roundBinary (p : Nat) (emin : Int) (q y : ℚ) (hp : 1 ≤ p)
    (hy : IsBinary p emin y) (h : y ≤ q) : y ≤ roundBinary p emin q := by
  obtain ⟨M, k, hk, hM, rfl⟩ := hy
  unfold roundBinary
  by_cases hke : max (Int.log 2 |q| - ((p : Int) - 1)) emin ≤ k
  · obtain ⟨N, hN⟩ := IsBinary_multiple M k _ hke
    rw [hN]
    apply mul_le_mul_of_nonneg_right _ (two_zpow_pos _).le
    have hx : (N : ℚ) ≤ q / (2 : ℚ) ^ (max (Int.log 2 |q| - ((p : Int) - 1)) emin) := by
      rw [le_div_iff₀ (two_zpow_pos _), ← hN]
      exact h
    exact_mod_cast le_roundEven _ N hx
  · push_neg at hke
    have hlt : emin < max (Int.log 2 |q| - ((p : Int) - 1)) emin := lt_of_le_of_lt hk hke
    have he : max (Int.log 2 |q| - ((p : Int) - 1)) emin = Int.log 2 |q| - ((p : Int) - 1) := by
      rcases max_cases (Int.log 2 |q| - ((p : Int) - 1)) emin with ⟨h1, _⟩ | ⟨h1, _⟩
      · exact h1
      · rw [h1] at hlt; exact absurd hlt (lt_irrefl _)
    rw [he] at hke ⊢
    by_cases hq : q = 0
    · subst hq
      simp only [zero_div]
      have h0 : roundEven 0 = 0 := roundEven_eq_of_abs_lt 0 0 (by norm_num)
      rw [h0]
      simpa using h
    · obtain ⟨hy1, hy2⟩ := IsBinary_abs_lt p q M k hq hM hke
      have hpos : 0 < q := by
        by_contra hc
        push_neg at hc
        have hq1 : |q| = -q := abs_of_nonpos hc
        have := neg_abs_le ((M : ℚ) * (2 : ℚ) ^ k)
        linarith
      have hqle : (2 : ℚ) ^ (Int.log 2 |q|) ≤ q := by
        have hq1 : |q| = q := abs_of_pos hpos
        linarith
      obtain ⟨j, hj⟩ : ∃ j : Nat, (p : Int) - 1 = (j : Int) := ⟨p - 1, by omega⟩
      have hsplit : (2 : ℚ) ^ (Int.log 2 |q|) =
          ((2 ^ j : Int) : ℚ) * (2 : ℚ) ^ (Int.log 2 |q| - ((p : Int) - 1)) := by
        rw [hj]
        push_cast
        rw [← zpow_natCast, ← zpow_add₀ (by norm_num)]
        congr 1
        ring
      have hx : ((2 ^ j : Int) : ℚ) ≤ q / (2 : ℚ) ^ (Int.log 2 |q| - ((p : Int) - 1)) := by
        rw [le_div_iff₀ (two_zpow_pos _), ← hsplit]
        exact hqle
      have hr := le_roundEven _ _ hx
      have hr' : ((2 ^ j : Int) : ℚ) ≤
          (roundEven (q / (2 : ℚ) ^ (Int.log 2 |q| - ((p : Int) - 1))) : ℚ) := by
        exact_mod_cast hr
      have hv : (2 : ℚ) ^ (Int.log 2 |q|) ≤
          (roundEven (q / (2 : ℚ) ^ (Int.log 2 |q| - ((p : Int) - 1))) : ℚ) *
            (2 : ℚ) ^ (Int.log 2 |q| - ((p : Int) - 1)) := by
        have := mul_le_mul_of_nonneg_right hr' (two_zpow_pos (Int.log 2 |q| - ((p : Int) - 1))).le
        rw [hsplit]
        exact this
      have := le_abs_self ((M : ℚ) * (2 : ℚ) ^ k)
      linarith

/-- A value of the format is rounded to itself. -/
theorem roundBinary_of_IsBinary (p : Nat) (emin : Int) (y : ℚ) (hp : 1 ≤ p)
    (hy : IsBinary p emin y) : roundBinary p emin y = y :=
  le_antisymm (roundBinary_le p emin y y hp hy (le_refl y))
    (le_roundBinary p emin y y hp hy (le_refl y))

/-- The binary logarithm of a positive value lying in the binade `[2^L, 2^(L+1))`. -/
theorem log_two_eq (r : ℚ) (L : Int) (h1 : (2 : ℚ) ^ L ≤ r) (h2 : r < (2 : ℚ) ^ (L + 1)) :
    Int.log 2 r = L := by
  have hr : 0 < r := lt_of_lt_of_le (two_zpow_pos L) h1
  have ha : L ≤ Int.log 2 r := by
    apply (Int.zpow_le_iff_le_log (by norm_num : 1 < 2) hr).mp
    simpa using h1
  have hb : Int.log 2 r < L + 1 := by
    apply (Int.lt_zpow_iff_log_lt (by norm_num : 1 < 2) hr).mp
    simpa using h2
  omega

/-- Evaluation of a rounding: in the binade `[2^L, 2^(L+1))` with last place
`2^e`, a value within half a last place of `n * 2^e` is rounded to it. -/
theorem roundBinary_eq_of_near (p : Nat) (emin : Int) (q : ℚ) (L e n : Int)
    (h1 : (2 : ℚ) ^ L ≤ |q|) (h2 : |q| < (2 : ℚ) ^ (L + 1))
    (he : max (L - ((p : Int) - 1)) emin = e)
    (hn : |q / (2 : ℚ) ^ e - (n : ℚ)| < 1 / 2) :
    roundBinary p emin q = (n : ℚ) * (2 : ℚ) ^ e := by
  unfold roundBinary
  rw [log_two_eq |q| L h1 h2, he, roundEven_eq_of_abs_lt _ n hn]

/-- A `float` is a `double`. -/
theorem IsBinary_float_double (y : ℚ) (h : IsBinary 24 (-149) y) : IsBinary 53 (-1074) y := by
  obtain ⟨M, k, hk, hM, rfl⟩ := h
  exact ⟨M, k, by omega, lt_trans hM (by norm_num), rfl⟩

/-- Twice a value of the format is a value of the format. -/
theorem IsBinary_double (p : Nat) (emin : Int) (y : ℚ) (h : IsBinary p emin y) :
    IsBinary p emin (2 * y) := by
  obtain ⟨M, k, hk, hM, rfl⟩ := h
  refine ⟨M, k + 1, by omega, hM, ?_⟩
  rw [zpow_add₀ (by norm_num), zpow_one]
  ring

/-- The integer multiples `N / 2^j` with `|N| < 2^24` and `j ≤ 149` are `float`s. -/
theorem IsBinary_float_of_int (N : Int) (j : Nat) (hN : |N| < 2 ^ 24) (hj : j ≤ 149) :
    IsBinary 24 (-149) ((N : ℚ) / (2 : ℚ) ^ j) := by
  refine ⟨N, -(j : Int), by omega, hN, ?_⟩
  rw [zpow_neg, zpow_natCast, div_eq_mul_inv]

/-- An interval of at most 50 ms: the edge-handling step changes nothing. -/
theorem s0Edge_of_le (cfg : s0SettingsStruct) (ovf now new_pulse : Nat) (d : s0DataStruct)
    (h : usub new_pulse d.lastPulse ≤ 50) : s0Edge cfg ovf now new_pulse d = d := by
  unfold s0Edge
  simp only [gt_iff_lt]
  rw [if_neg (Nat.not_lt.mpr h)]

/-- The `watt` field after an accepted edge. -/
theorem s0Edge_watt (cfg : s0SettingsStruct) (ovf now new_pulse : Nat) (d : s0DataStruct)
    (hi : 50 < usub new_pulse d.lastPulse) :
    (s0Edge cfg ovf now new_pulse d).watt =
      if 0 < d.lastPulse then wattOf ovf (usub new_pulse d.lastPulse) cfg.ppkwh else d.watt := by
  unfold s0Edge
  simp only [gt_iff_lt]
  rw [if_pos hi]
  split_ifs <;> rfl

/-- The `pulses` field after an accepted edge. -/
theorem s0Edge_pulses (cfg : s0SettingsStruct) (ovf now new_pulse : Nat) (d : s0DataStruct)
    (hi : 50 < usub new_pulse d.lastPulse) :
    (s0Edge cfg ovf now new_pulse d).pulses = d.pulses + 1 := by
  unfold s0Edge
  simp only [gt_iff_lt]
  rw [if_pos hi]
  split_ifs <;> rfl

/-- The `lastPulse` field after an accepted edge. -/
theorem s0Edge_lastPulse (cfg : s0SettingsStruct) (ovf now new_pulse : Nat) (d : s0DataStruct)
    (hi : 50 < usub new_pulse d.lastPulse) :
    (s0Edge cfg ovf now new_pulse d).lastPulse = new_pulse := by
  unfold s0Edge
  simp only [gt_iff_lt]
  rw [if_pos hi]
  split_ifs <;> rfl

/-- No report is due: the report step changes nothing and publishes nothing. -/
theorem s0Report_idle (cfg : s0SettingsStruct) (ovf now : Nat) (d : s0DataStruct)
    (h : now ≤ d.nextReport) : s0Report cfg ovf now d = (d, none) := by
  unfold s0Report
  rw [if_neg (Nat.not_lt.mpr h)]

/-- The `watt` field after a due report: the standby or the active clamp. -/
theorem s0Report_watt (cfg : s0SettingsStruct) (ovf now : Nat) (d : s0DataStruct)
    (h : d.nextReport < now) :
    (s0Report cfg ovf now d).1.watt =
      if inStandby cfg d.watt then
        (if calcMaxWatt cfg ovf now d < d.watt / 2 then calcMaxWatt cfg ovf now d / 2 else d.watt)
      else
        (if calcMaxWatt cfg ovf now d < d.watt then calcMaxWatt cfg ovf now d else d.watt) := by
  unfold s0Report
  simp only [gt_iff_lt]
  rw [if_pos h]
  split_ifs <;> rfl

/-- What a due report publishes. -/
theorem s0Report_published (cfg : s0SettingsStruct) (ovf now : Nat) (d : s0DataStruct)
    (h : d.nextReport < now) :
    (s0Report cfg ovf now d).2 =
      some { Watthour := dmul d.pulses (ddiv (some 1000) cfg.ppkwh),
             watt := (s0Report cfg ovf now d).1.watt } := by
  unfold s0Report
  simp only [gt_iff_lt]
  rw [if_pos h]
  split_ifs <;> rfl

/-- The `pulses` field after a due report. -/
theorem s0Report_pulses (cfg : s0SettingsStruct) (ovf now : Nat) (d : s0DataStruct)
    (h : d.nextReport < now) :
    (s0Report cfg ovf now d).1.pulses = if cfg.sum_s0_watthour then d.pulses else 0 := by
  unfold s0Report
  simp only [gt_iff_lt]
  rw [if_pos h]
  dsimp only
  cases cfg.sum_s0_watthour
  · simp
  · simp only [Bool.not_true, Bool.false_eq_true, if_false, if_true]
    split_ifs <;> rfl

/-- The `nextReport` field after a due report. -/
theorem s0Report_nextReport (cfg : s0SettingsStruct) (ovf now : Nat) (d : s0DataStruct)
    (h : d.nextReport < now) :
    (s0Report cfg ovf now d).1.nextReport =
      if inStandby cfg d.watt then uadd now (1000 * cfg.lowerPowerInterval)
      else uadd now MINREPORTEDS0TIME := by
  unfold s0Report
  simp only [gt_iff_lt]
  rw [if_pos h]
  split_ifs <;> rfl

/-- The report step never touches `lastPulse`. -/
theorem s0Report_lastPulse (cfg : s0SettingsStruct) (ovf now : Nat) (d : s0DataStruct) :
    (s0Report cfg ovf now d).1.lastPulse = d.lastPulse := by
  unfold s0Report
  dsimp only
  split_ifs <;> rfl

/-- A report is published exactly when `millisThisLoop > nextReport`. -/
theorem s0Report_some_iff (cfg : s0SettingsStruct) (ovf now : Nat) (d : s0DataStruct) :
    (s0Report cfg ovf now d).2.isSome = true ↔ d.nextReport < now := by
  constructor
  · intro h
    by_contra hn
    rw [s0Report_idle cfg ovf now d (Nat.not_lt.mp hn)] at h
    simp at h
  · intro h
    rw [s0Report_published cfg ovf now d h]
    rfl

/-! ## Claims on the S0 pulse meter -/

/-- C1: debounce rejection.  When the interval `new_pulse - lastPulse` (32-bit
unsigned) is at most 50 ms, zero included, the edge-handling step of `s0Loop`
leaves `pulses` and `lastPulse` of the channel unchanged. -/
theorem C1_debounce_rejects_edge (cfg : s0SettingsStruct) (ovf millisThisLoop new_pulse : Nat)
    (d : s0DataStruct) (h : usub new_pulse d.lastPulse ≤ 50) :
    (s0Edge cfg ovf millisThisLoop new_pulse d).pulses = d.pulses ∧
      (s0Edge cfg ovf millisThisLoop new_pulse d).lastPulse = d.lastPulse := by
  rw [s0Edge_of_le cfg ovf millisThisLoop new_pulse d h]
  exact ⟨rfl, rfl⟩

/-- Witness of C1: an edge latched 50 ms after the last accepted one. -/
theorem C1_debounce_rejects_edge_witness :
    usub 1050 1000 ≤ 50 ∧
      (s0Edge ⟨5, 1000, 60, false⟩ 0 1200 1050 ⟨3, 10, 1000, 9000⟩).pulses = 3 ∧
      (s0Edge ⟨5, 1000, 60, false⟩ 0 1200 1050 ⟨3, 10, 1000, 9000⟩).lastPulse = 1000 :=
  ⟨by decide,
    C1_debounce_rejects_edge ⟨5, 1000, 60, false⟩ 0 1200 1050 ⟨3, 10, 1000, 9000⟩ (by decide)⟩

/-- C2, the code at the failing input (`ppkwh = 1000`).  The millisecond
counter wraps around and an edge is latched at `millis() = 0`, 296 ms after
the edge at 4294967000: it is accepted (12162 W, 8 pulses) and leaves
`lastPulse = 0`, the value that line 205 reads as "no pulse since reboot".
The next edge, 1000 ms later, follows an accepted edge and is accepted, but
`watt` keeps 12162 instead of `3600000000 / 1000 / 1000 = 3600`. -/
theorem C2_edge_after_timestamp_zero :
    usub 0 4294967000 = 296 ∧
      (s0Edge ⟨5, 1000, 60, false⟩ 0 0 0 ⟨7, 900, 4294967000, 3000⟩).pulses = 8 ∧
      (s0Edge ⟨5, 1000, 60, false⟩ 0 0 0 ⟨7, 900, 4294967000, 3000⟩).lastPulse = 0 ∧
      (s0Edge ⟨5, 1000, 60, false⟩ 0 0 0 ⟨7, 900, 4294967000, 3000⟩).watt = 12162 ∧
      50 < usub 1000 (s0Edge ⟨5, 1000, 60, false⟩ 0 0 0 ⟨7, 900, 4294967000, 3000⟩).lastPulse ∧
      (s0Edge ⟨5, 1000, 60, false⟩ 0 1000 1000
          (s0Edge ⟨5, 1000, 60, false⟩ 0 0 0 ⟨7, 900, 4294967000, 3000⟩)).watt = 12162 ∧
      (s0Edge ⟨5, 1000, 60, false⟩ 0 1000 1000
          (s0Edge ⟨5, 1000, 60, false⟩ 0 0 0 ⟨7, 900, 4294967000, 3000⟩)).watt ≠
        3600000000 / 1000 / 1000 := by
  have hw : wattOf 0 296 1000 = 12162 := by
    rw [wattOf_eq 0 296 1000 (by decide) (by decide)]
  have h1 : s0Edge ⟨5, 1000, 60, false⟩ 0 0 0 ⟨7, 900, 4294967000, 3000⟩ = ⟨8, 12162, 0, 3000⟩ := by
    simp [s0Edge, usub, MINREPORTEDS0TIME, hw]
  rw [h1]
  decide

/-- An accepted edge on a channel whose `lastPulse` is non-zero, with positive
`ppkwh`: `watt` is the integer part of `(3600000000 / interval) / ppkwh` and
`pulses` grows by 1. -/
theorem s0Edge_accepted (cfg : s0SettingsStruct) (ovf millisThisLoop new_pulse : Nat)
    (d : s0DataStruct) (hp : 0 < cfg.ppkwh) (hl : 0 < d.lastPulse)
    (hi : 50 < usub new_pulse d.lastPulse) :
    (s0Edge cfg ovf millisThisLoop new_pulse d).watt =
        3600000000 / usub new_pulse d.lastPulse / cfg.ppkwh ∧
      (s0Edge cfg ovf millisThisLoop new_pulse d).pulses = d.pulses + 1 := by
  refine ⟨?_, s0Edge_pulses cfg ovf millisThisLoop new_pulse d hi⟩
  rw [s0Edge_watt cfg ovf millisThisLoop new_pulse d hi, if_pos hl]
  exact wattOf_eq ovf _ _ (by omega) hp

/-- A report never raises `watt`: a channel whose `watt` is 0 keeps 0. -/
theorem s0Report_watt_zero (cfg : s0SettingsStruct) (ovf now : Nat) (d : s0DataStruct)
    (hw : d.watt = 0) : (s0Report cfg ovf now d).1.watt = 0 := by
  by_cases h : d.nextReport < now
  · rw [s0Report_watt cfg ovf now d h, hw]
    split_ifs <;> simp_all
  · rw [s0Report_idle cfg ovf now d (Nat.not_lt.mp h)]
    exact hw

/-- C3: first-edge rule.  From a channel state with `lastPulse = 0` and
`watt = 0` (the state after initialisation), the tick that accepts the first
edge (interval above 50 ms) leaves `watt = 0` after the edge-handling step,
after the report step of the same tick, and in the report published in that
tick, if any. -/
theorem C3_first_edge_keeps_zero_watt (cfg : s0SettingsStruct)
    (ovf millisThisLoop new_pulse : Nat) (d : s0DataStruct)
    (hl : d.lastPulse = 0) (hw : d.watt = 0) (hi : 50 < usub new_pulse d.lastPulse) :
    (s0Edge cfg ovf millisThisLoop new_pulse d).watt = 0 ∧
      (s0Channel cfg ovf millisThisLoop new_pulse d).1.watt = 0 ∧
      ∀ r : S0Report, (s0Channel cfg ovf millisThisLoop new_pulse d).2 = some r → r.watt = 0 := by
  have he : (s0Edge cfg ovf millisThisLoop new_pulse d).watt = 0 := by
    rw [s0Edge_watt cfg ovf millisThisLoop new_pulse d hi, hl]
    simpa using hw
  have hc : (s0Channel cfg ovf millisThisLoop new_pulse d).1.watt = 0 :=
    s0Report_watt_zero cfg ovf millisThisLoop _ he
  refine ⟨he, hc, ?_⟩
  intro r hr
  by_cases h : (s0Edge cfg ovf millisThisLoop new_pulse d).nextReport < millisThisLoop
  · unfold s0Channel at hr hc
    rw [s0Report_published cfg ovf millisThisLoop _ h] at hr
    cases hr
    exact hc
  · unfold s0Channel at hr
    rw [s0Report_idle cfg ovf millisThisLoop _ (Nat.not_lt.mp h)] at hr
    cases hr

/-- Witness of C3: the first edge arrives 6000 ms after boot and is reported in
the same tick with 0 W. -/
theorem C3_first_edge_keeps_zero_watt_witness :
    (s0Initial 0).lastPulse = 0 ∧ (s0Initial 0).watt = 0 ∧
      50 < usub 6000 (s0Initial 0).lastPulse ∧
      (s0Edge ⟨5, 1000, 60, false⟩ 0 6001 6000 (s0Initial 0)).watt = 0 ∧
      (s0Channel ⟨5, 1000, 60, false⟩ 0 6001 6000 (s0Initial 0)).1.watt = 0 ∧
      ∀ r : S0Report,
        (s0Channel ⟨5, 1000, 60, false⟩ 0 6001 6000 (s0Initial 0)).2 = some r → r.watt = 0 :=
  ⟨rfl, rfl, by decide,
    C3_first_edge_keeps_zero_watt ⟨5, 1000, 60, false⟩ 0 6001 6000 (s0Initial 0)
      rfl rfl (by decide)⟩

/-- Whatever port is requested, `restore_s0_Watthour` writes the first channel
(`actS0Data[0]`, port 1) with the calibration constant of the first channel. -/
theorem restore_s0_Watthour_eq (cfg : s0SettingsStruct) (cfgs : List s0SettingsStruct)
    (ovf : Nat) (s0Port : Int) (watthour : ℚ) (d : s0DataStruct) (ds : List s0DataStruct) :
    restore_s0_Watthour (cfg :: cfgs) ovf s0Port watthour (d :: ds) =
      { d with pulses :=
          toCount (toInt ovf
            (some (toDouble (watthour * toDouble ((cfg.ppkwh : ℚ) / 1000))))) } :: ds := by
  simp [restore_s0_Watthour, assign]

/-- The conversion `int(x)` of a non-negative in-range value, stored in the
counter, is its integer part. -/
theorem toInt_of_nonneg (ovf : Nat) (q : ℚ) (h0 : 0 ≤ q) (h1 : q < 2147483648) :
    toCount (toInt ovf (some q)) = (Int.floor q).toNat := by
  simp only [toInt]
  rw [if_pos ⟨by linarith, h1⟩, if_pos h0]
  have hf0 : 0 ≤ Int.floor q := Int.floor_nonneg.mpr h0
  have hf1 : Int.floor q < 2147483648 := by
    rw [Int.floor_lt]
    exact_mod_cast h1
  unfold toCount
  rw [Int.emod_eq_of_lt hf0 (by omega)]

/-- A double is rounded to itself. -/
theorem toDouble_of_IsBinary (y : ℚ) (h : IsBinary 53 (-1074) y) : toDouble y = y :=
  roundBinary_of_IsBinary 53 (-1074) y (by norm_num) h

/-- Zero is a value of every binary format. -/
theorem IsBinary_zero (p : Nat) (emin : Int) (he : emin ≤ 0) : IsBinary p emin 0 :=
  ⟨0, 0, he, by simp, by simp⟩

/-- The double product of line 176 is not negative for a non-negative `watthour`. -/
theorem restore_product_nonneg (V : ℚ) (ppkwh : Nat) (hV : 0 ≤ V) :
    0 ≤ toDouble (V * toDouble ((ppkwh : ℚ) / 1000)) := by
  have hz : IsBinary 53 (-1074) 0 := IsBinary_zero 53 (-1074) (by norm_num)
  have h1 : 0 ≤ toDouble ((ppkwh : ℚ) / 1000) :=
    le_roundBinary 53 (-1074) _ 0 (by norm_num) hz (by positivity)
  exact le_roundBinary 53 (-1074) _ 0 (by norm_num) hz (mul_nonneg hV h1)

/-- C5 fails as stated: restoring 1.75 Wh on port 1 with `ppkwh = 1000` stores
`pulses = 1`, while `round (1.75 * 1000 / 1000) = 2` (quotient and product are
exact here). -/
theorem C5_counterexample :
    (restore_s0_Watthour [⟨5, 1000, 60, true⟩, ⟨6, 1000, 60, true⟩] 0 1 (7 / 4)
        [⟨0, 0, 0, 5000⟩, ⟨0, 0, 0, 5000⟩]) =
        [⟨1, 0, 0, 5000⟩, ⟨0, 0, 0, 5000⟩] ∧
      round ((7 / 4 : ℚ) * 1000 / 1000) = 2 := by
  constructor
  · have h1 : toDouble (((1000 : Nat) : ℚ) / 1000) = 1 := by
      rw [toDouble_of_IsBinary _ ⟨1, 0, by norm_num, by norm_num, by norm_num⟩]
      norm_num
    have h2 : toDouble ((7 / 4 : ℚ) * 1) = 7 / 4 := by
      rw [toDouble_of_IsBinary _ ⟨7, -2, by norm_num, by norm_num, by norm_num⟩]
      norm_num
    have h3 : Int.floor (7 / 4 : ℚ) = 1 := by
      rw [Int.floor_eq_iff]; norm_num
    rw [restore_s0_Watthour_eq]
    dsimp only
    rw [h1, h2, toInt_of_nonneg _ _ (by norm_num) (by norm_num), h3]
    rfl
  · rw [round_eq, Int.floor_eq_iff]; norm_num

/-- C5 as amended: restore value.  For a watt-hour value `V >= 0`,
`restore_s0_Watthour` called for port 1 sets the `pulses` of channel 1 to the
integer part (truncation, not rounding to nearest) of the double product
`V * (ppkwh / 1000.0)` as line 176 computes it, quotient and product each
rounded to the nearest double and the result below `2^31`, and changes
nothing else; when `ppkwh / 1000` and the product are doubles, so that neither
rounding changes anything, this is the integer part of `V * ppkwh / 1000`. -/
theorem C5_restore_truncates (cfg : s0SettingsStruct) (cfgs : List s0SettingsStruct)
    (ovf : Nat) (V : ℚ) (d : s0DataStruct) (ds : List s0DataStruct)
    (hV : 0 ≤ V) (hb : toDouble (V * toDouble ((cfg.ppkwh : ℚ) / 1000)) < 2147483648) :
    restore_s0_Watthour (cfg :: cfgs) ovf 1 V (d :: ds) =
        { d with pulses :=
            (Int.floor (toDouble (V * toDouble ((cfg.ppkwh : ℚ) / 1000)))).toNat } :: ds ∧
      (toDouble ((cfg.ppkwh : ℚ) / 1000) = (cfg.ppkwh : ℚ) / 1000 →
        toDouble (V * ((cfg.ppkwh : ℚ) / 1000)) = V * ((cfg.ppkwh : ℚ) / 1000) →
        restore_s0_Watthour (cfg :: cfgs) ovf 1 V (d :: ds) =
          { d with pulses := (Int.floor (V * ((cfg.ppkwh : ℚ) / 1000))).toNat } :: ds) := by
  have h : restore_s0_Watthour (cfg :: cfgs) ovf 1 V (d :: ds) =
      { d with pulses :=
          (Int.floor (toDouble (V * toDouble ((cfg.ppkwh : ℚ) / 1000)))).toNat } :: ds := by
    rw [restore_s0_Watthour_eq,
      toInt_of_nonneg ovf _ (restore_product_nonneg V cfg.ppkwh hV) hb]
  refine ⟨h, ?_⟩
  intro h1 h2
  rw [h, h1, h2]

/-- Witness of C5 as amended: 3000 Wh at `ppkwh = 9`.  The double nearest to
`9 / 1000` lies below it, the double product is `27 - 2^-48` and 26 pulses are
restored, one less than the integer part 27 of the exact product.  With
1.75 Wh at `ppkwh = 2000` quotient and product are doubles, and the integer
part 3 of 3.5 is restored. -/
theorem C5_restore_truncates_witness :
    (0 : ℚ) ≤ 3000 ∧
      toDouble ((3000 : ℚ) * toDouble (((9 : Nat) : ℚ) / 1000)) < 2147483648 ∧
      restore_s0_Watthour [⟨5, 9, 60, true⟩, ⟨6, 1000, 60, true⟩] 0 1 3000
          [⟨0, 7, 0, 5000⟩, ⟨0, 0, 0, 5000⟩] =
        [⟨26, 7, 0, 5000⟩, ⟨0, 0, 0, 5000⟩] ∧
      Int.floor ((3000 : ℚ) * (((9 : Nat) : ℚ) / 1000)) = 27 ∧
      (0 : ℚ) ≤ 7 / 4 ∧
      toDouble ((7 / 4 : ℚ) * toDouble (((2000 : Nat) : ℚ) / 1000)) < 2147483648 ∧
      toDouble (((2000 : Nat) : ℚ) / 1000) = ((2000 : Nat) : ℚ) / 1000 ∧
      toDouble ((7 / 4 : ℚ) * (((2000 : Nat) : ℚ) / 1000)) =
        (7 / 4 : ℚ) * (((2000 : Nat) : ℚ) / 1000) ∧
      restore_s0_Watthour [⟨5, 2000, 60, true⟩, ⟨6, 1000, 60, true⟩] 0 1 (7 / 4)
          [⟨0, 7, 0, 5000⟩, ⟨0, 0, 0, 5000⟩] =
        [⟨3, 7, 0, 5000⟩, ⟨0, 0, 0, 5000⟩] :=
  have h1 : toDouble (((9 : Nat) : ℚ) / 1000) = 5188146770730811 * (2 : ℚ) ^ (-59 : Int) := by
    have := roundBinary_eq_of_near 53 (-1074) (((9 : Nat) : ℚ) / 1000) (-7) (-59)
      5188146770730811 (by norm_num [abs_of_pos]) (by norm_num [abs_of_pos]) (by norm_num)
      (by norm_num [abs_lt])
    rw [toDouble, this]
    norm_num
  have h2 : toDouble ((3000 : ℚ) * (5188146770730811 * (2 : ℚ) ^ (-59 : Int))) =
      7599824371187711 * (2 : ℚ) ^ (-48 : Int) := by
    have := roundBinary_eq_of_near 53 (-1074)
      ((3000 : ℚ) * (5188146770730811 * (2 : ℚ) ^ (-59 : Int))) 4 (-48)
      7599824371187711 (by norm_num [abs_of_pos]) (by norm_num [abs_of_pos]) (by norm_num)
      (by norm_num [abs_lt])
    rw [toDouble, this]
    norm_num
  have h3 : Int.floor ((7599824371187711 : ℚ) * (2 : ℚ) ^ (-48 : Int)) = 26 := by
    rw [Int.floor_eq_iff]; norm_num
  have hb : toDouble ((3000 : ℚ) * toDouble (((9 : Nat) : ℚ) / 1000)) < 2147483648 := by
    rw [h1, h2]; norm_num
  have h4 : Int.floor ((3000 : ℚ) * (((9 : Nat) : ℚ) / 1000)) = 27 := by
    rw [Int.floor_eq_iff]; norm_num
  have h5 : toDouble (((2000 : Nat) : ℚ) / 1000) = ((2000 : Nat) : ℚ) / 1000 :=
    toDouble_of_IsBinary _ ⟨2, 0, by norm_num, by norm_num, by norm_num⟩
  have h6 : toDouble ((7 / 4 : ℚ) * (((2000 : Nat) : ℚ) / 1000)) =
      (7 / 4 : ℚ) * (((2000 : Nat) : ℚ) / 1000) :=
    toDouble_of_IsBinary _ ⟨7, -1, by norm_num, by norm_num, by norm_num⟩
  have h7 : Int.floor ((7 / 4 : ℚ) * (((2000 : Nat) : ℚ) / 1000)) = 3 := by
    rw [Int.floor_eq_iff]; norm_num
  have hb2 : toDouble ((7 / 4 : ℚ) * toDouble (((2000 : Nat) : ℚ) / 1000)) < 2147483648 := by
    rw [h5, h6]; norm_num
  ⟨by norm_num, hb,
    ((C5_restore_truncates ⟨5, 9, 60, true⟩ [⟨6, 1000, 60, true⟩] 0 3000 ⟨0, 7, 0, 5000⟩
      [⟨0, 0, 0, 5000⟩] (by norm_num) hb).1).trans (by
        dsimp only
        rw [h1, h2, h3]
        rfl),
    h4, by norm_num, hb2, h5, h6,
    ((C5_restore_truncates ⟨5, 2000, 60, true⟩ [⟨6, 1000, 60, true⟩] 0 (7 / 4) ⟨0, 7, 0, 5000⟩
      [⟨0, 0, 0, 5000⟩] (by norm_num) hb2).2 h5 h6).trans (by
        dsimp only
        rw [h7]
        rfl)⟩

/-- C6, the code at the failing inputs: a restore for the non-existent port 3
writes channel 1, and a restore for port 2 writes channel 1 and leaves
channel 2 untouched (`ppkwh = 1000`, 5 Wh, both counters 0 before). -/
theorem C6_restore_ignores_port :
    restore_s0_Watthour [⟨5, 1000, 60, true⟩, ⟨6, 1000, 60, true⟩] 0 3 5
        [⟨0, 0, 0, 5000⟩, ⟨0, 0, 0, 5000⟩] =
        [⟨5, 0, 0, 5000⟩, ⟨0, 0, 0, 5000⟩] ∧
      restore_s0_Watthour [⟨5, 1000, 60, true⟩, ⟨6, 1000, 60, true⟩] 0 2 5
        [⟨0, 0, 0, 5000⟩, ⟨0, 0, 0, 5000⟩] =
        [⟨5, 0, 0, 5000⟩, ⟨0, 0, 0, 5000⟩] := by
  have h1 : toDouble (((1000 : Nat) : ℚ) / 1000) = 1 := by
    rw [toDouble_of_IsBinary _ ⟨1, 0, by norm_num, by norm_num, by norm_num⟩]
    norm_num
  have h2 : toDouble ((5 : ℚ) * 1) = 5 := by
    rw [toDouble_of_IsBinary _ ⟨5, 0, by norm_num, by norm_num, by norm_num⟩]
    norm_num
  have h3 : Int.floor (5 : ℚ) = 5 := by
    rw [Int.floor_eq_iff]; norm_num
  constructor <;>
  · rw [restore_s0_Watthour_eq]
    simp only []
    rw [h1, h2, toInt_of_nonneg _ _ (by norm_num) (by norm_num), h3]
    rfl

/-! ## Claims on the temperature sampler -/

/-- A sentinel reading leaves the probe as it is and only logs the error. -/
theorem dallasProbe_offline (updatenow : Bool) (r : ProbeRead) (d : dallasDataStruct)
    (h : r.temp < -120) : dallasProbe updatenow r d = (d, [DallasEvent.offline d.address]) := by
  unfold dallasProbe
  rw [if_pos h]

/-- A reading that fails the test of line 84 leaves the probe as it is and only
logs the filtering. -/
theorem dallasProbe_filtered (updatenow : Bool) (r : ProbeRead) (d : dallasDataStruct)
    (hs : ¬ r.temp < -120) (hf : dallasFiltered r d = true) :
    dallasProbe updatenow r d = (d, [DallasEvent.filtering d.address r.temp d.temperature]) := by
  unfold dallasProbe
  rw [if_neg hs, if_pos hf]

/-- An accepted reading: the probe takes the candidate and the timestamp of
line 87, and the value is published exactly when `updatenow` holds or the
value differs from the stored one. -/
theorem dallasProbe_accepted (updatenow : Bool) (r : ProbeRead) (d : dallasDataStruct)
    (hs : ¬ r.temp < -120) (hok : dallasFiltered r d = false) :
    dallasProbe updatenow r d =
      ({ d with temperature := r.temp, lastgoodtime := r.millis87 },
        if updatenow = true ∨ d.temperature ≠ r.temp then
          [DallasEvent.received d.address r.temp, DallasEvent.publish d.address r.temp]
        else []) := by
  unfold dallasProbe
  rw [if_neg hs, if_neg (by rw [hok]; exact Bool.false_ne_true)]
  dsimp only
  split_ifs with h
  · rfl
  · have ht : d.temperature = r.temp := by
      by_contra hne
      exact h (Or.inr hne)
    cases d
    simp only at ht
    subst ht
    rfl

/-- The double part of line 83 never passes a double above `ms / 2000`. -/
theorem allowedDouble_le (ms : Nat) (y : ℚ) (hy : IsBinary 53 (-1074) y)
    (h : (ms : ℚ) / 2000 ≤ y) :
    toDouble (toDouble ((ms : ℚ) / 1000) * MAXTEMPDIFFPERSEC) ≤ y := by
  have h1 : toDouble ((ms : ℚ) / 1000) ≤ 2 * y :=
    roundBinary_le 53 (-1074) _ (2 * y) (by norm_num) (IsBinary_double 53 (-1074) y hy)
      (by linarith)
  apply roundBinary_le 53 (-1074) _ y (by norm_num) hy
  unfold MAXTEMPDIFFPERSEC
  linarith

/-- The double part of line 83 never passes a double below `ms / 2000`. -/
theorem le_allowedDouble (ms : Nat) (y : ℚ) (hy : IsBinary 53 (-1074) y)
    (h : y ≤ (ms : ℚ) / 2000) :
    y ≤ toDouble (toDouble ((ms : ℚ) / 1000) * MAXTEMPDIFFPERSEC) := by
  have h1 : 2 * y ≤ toDouble ((ms : ℚ) / 1000) :=
    le_roundBinary 53 (-1074) _ (2 * y) (by norm_num) (IsBinary_double 53 (-1074) y hy)
      (by linarith)
  apply le_roundBinary 53 (-1074) _ y (by norm_num) hy
  unfold MAXTEMPDIFFPERSEC
  linarith

/-- The float `allowedtempdiff` never passes a float above the exact allowed
deviation `(now - lastgoodtime) / 2000`. -/
theorem allowedtempdiff_le (millis83 : Nat) (d : dallasDataStruct) (y : ℚ)
    (hy : IsBinary 24 (-149) y)
    (h : ((usub millis83 d.lastgoodtime : Nat) : ℚ) / 2000 ≤ y) :
    allowedtempdiff millis83 d ≤ y :=
  roundBinary_le 24 (-149) _ y (by norm_num) hy
    (allowedDouble_le _ y (IsBinary_float_double y hy) h)

/-- The float `allowedtempdiff` never passes a float below the exact allowed
deviation `(now - lastgoodtime) / 2000`. -/
theorem le_allowedtempdiff (millis83 : Nat) (d : dallasDataStruct) (y : ℚ)
    (hy : IsBinary 24 (-149) y)
    (h : y ≤ ((usub millis83 d.lastgoodtime : Nat) : ℚ) / 2000) :
    y ≤ allowedtempdiff millis83 d :=
  le_roundBinary 24 (-149) _ y (by norm_num) hy
    (le_allowedDouble _ y (IsBinary_float_double y hy) h)

/-- The allowed deviation is never negative. -/
theorem allowedtempdiff_nonneg (millis83 : Nat) (d : dallasDataStruct) :
    0 ≤ allowedtempdiff millis83 d :=
  le_allowedtempdiff millis83 d 0 (IsBinary_zero 24 (-149) (by norm_num)) (by positivity)

/-- The quotients `N / 2^14` with `|N| < 2^24` are floats. -/
theorem IsBinary_float_16384 (N : Int) (hN : |N| < 16777216) :
    IsBinary 24 (-149) ((N : ℚ) / 16384) := by
  have h := IsBinary_float_of_int N 14 (by norm_num; exact hN) (by norm_num)
  norm_num at h
  exact h

/-- The quotients `N / 2^7` with `|N| < 2^24` are floats. -/
theorem IsBinary_float_128 (N : Int) (hN : |N| < 16777216) :
    IsBinary 24 (-149) ((N : ℚ) / 128) := by
  have h := IsBinary_float_of_int N 7 (by norm_num; exact hN) (by norm_num)
  norm_num at h
  exact h

/-- On the grid of the sensor the float test of the upper band decides as the
exact one: `af` is any value that never passes a float on either side of
`ms / 2000`. -/
theorem band_upper_on_grid (ms : Nat) (m n : Int) (hm : |m| ≤ 32768) (hn : |n| ≤ 32768)
    (af : ℚ)
    (hle : ∀ y : ℚ, IsBinary 24 (-149) y → (ms : ℚ) / 2000 ≤ y → af ≤ y)
    (hge : ∀ y : ℚ, IsBinary 24 (-149) y → y ≤ (ms : ℚ) / 2000 → y ≤ af) :
    (m : ℚ) / 128 > toFloat ((n : ℚ) / 128 + af) ↔
      (m : ℚ) / 128 > (n : ℚ) / 128 + (ms : ℚ) / 2000 := by
  have hm' := abs_le.mp hm
  have hn' := abs_le.mp hn
  constructor
  · intro h
    by_contra hc
    push_neg at hc
    have hδ : IsBinary 24 (-149) (((m - n : Int) : ℚ) / 128) :=
      IsBinary_float_128 (m - n) (abs_lt.mpr ⟨by omega, by omega⟩)
    have h1 : (((m - n : Int) : ℚ) / 128) ≤ af := by
      apply hge _ hδ
      push_cast
      linarith
    have hc2 : (m : ℚ) / 128 ≤ (n : ℚ) / 128 + af := by
      push_cast at h1
      linarith
    have h2 := le_roundBinary 24 (-149) _ ((m : ℚ) / 128) (by norm_num)
      (IsBinary_float_128 m (abs_lt.mpr ⟨by omega, by omega⟩)) hc2
    have h3 : (m : ℚ) / 128 ≤ toFloat ((n : ℚ) / 128 + af) := h2
    linarith
  · intro h
    have hq : (125 * (n : ℚ) + 8 * (ms : ℚ)) < 125 * (m : ℚ) := by linarith
    have hz : 125 * n + 8 * (ms : Int) < 125 * m := by exact_mod_cast hq
    have hz1 : 125 * n + 8 * (ms : Int) + 1 ≤ 125 * m := by omega
    have hq1 : (125 * (n : ℚ) + 8 * (ms : ℚ) + 1) ≤ 125 * (m : ℚ) := by exact_mod_cast hz1
    have hms : (0 : ℚ) ≤ (ms : ℚ) := Nat.cast_nonneg ms
    have hy : IsBinary 24 (-149) (((128 * (m - n) - 1 : Int) : ℚ) / 16384) :=
      IsBinary_float_16384 _ (abs_lt.mpr ⟨by omega, by omega⟩)
    have h1 : af ≤ ((128 * (m - n) - 1 : Int) : ℚ) / 16384 := by
      apply hle _ hy
      push_cast
      linarith
    have hz2 : IsBinary 24 (-149) (((128 * m - 1 : Int) : ℚ) / 16384) :=
      IsBinary_float_16384 _ (abs_lt.mpr ⟨by omega, by omega⟩)
    have h2 : (n : ℚ) / 128 + af ≤ ((128 * m - 1 : Int) : ℚ) / 16384 := by
      push_cast at h1 ⊢
      linarith
    have h3 : toFloat ((n : ℚ) / 128 + af) ≤ ((128 * m - 1 : Int) : ℚ) / 16384 :=
      roundBinary_le 24 (-149) _ _ (by norm_num) hz2 h2
    push_cast at h3
    linarith

/-- On the grid of the sensor the float test of the lower band decides as the
exact one. -/
theorem band_lower_on_grid (ms : Nat) (m n : Int) (hm : |m| ≤ 32768) (hn : |n| ≤ 32768)
    (af : ℚ)
    (hle : ∀ y : ℚ, IsBinary 24 (-149) y → (ms : ℚ) / 2000 ≤ y → af ≤ y)
    (hge : ∀ y : ℚ, IsBinary 24 (-149) y → y ≤ (ms : ℚ) / 2000 → y ≤ af) :
    (m : ℚ) / 128 < toFloat ((n : ℚ) / 128 - af) ↔
      (m : ℚ) / 128 < (n : ℚ) / 128 - (ms : ℚ) / 2000 := by
  have hm' := abs_le.mp hm
  have hn' := abs_le.mp hn
  constructor
  · intro h
    by_contra hc
    push_neg at hc
    have hδ : IsBinary 24 (-149) (((n - m : Int) : ℚ) / 128) :=
      IsBinary_float_128 (n - m) (abs_lt.mpr ⟨by omega, by omega⟩)
    have h1 : (((n - m : Int) : ℚ) / 128) ≤ af := by
      apply hge _ hδ
      push_cast
      linarith
    have hc2 : (n : ℚ) / 128 - af ≤ (m : ℚ) / 128 := by
      push_cast at h1
      linarith
    have h2 := roundBinary_le 24 (-149) _ ((m : ℚ) / 128) (by norm_num)
      (IsBinary_float_128 m (abs_lt.mpr ⟨by omega, by omega⟩)) hc2
    have h3 : toFloat ((n : ℚ) / 128 - af) ≤ (m : ℚ) / 128 := h2
    linarith
  · intro h
    have hq : (125 * (m : ℚ) + 8 * (ms : ℚ)) < 125 * (n : ℚ) := by linarith
    have hz : 125 * m + 8 * (ms : Int) < 125 * n := by exact_mod_cast hq
    have hz1 : 125 * m + 8 * (ms : Int) + 1 ≤ 125 * n := by omega
    have hq1 : (125 * (m : ℚ) + 8 * (ms : ℚ) + 1) ≤ 125 * (n : ℚ) := by exact_mod_cast hz1
    have hms : (0 : ℚ) ≤ (ms : ℚ) := Nat.cast_nonneg ms
    have hy : IsBinary 24 (-149) (((128 * (n - m) - 1 : Int) : ℚ) / 16384) :=
      IsBinary_float_16384 _ (abs_lt.mpr ⟨by omega, by omega⟩)
    have h1 : af ≤ ((128 * (n - m) - 1 : Int) : ℚ) / 16384 := by
      apply hle _ hy
      push_cast
      linarith
    have hz2 : IsBinary 24 (-149) (((128 * m + 1 : Int) : ℚ) / 16384) :=
      IsBinary_float_16384 _ (abs_lt.mpr ⟨by omega, by omega⟩)
    have h2 : ((128 * m + 1 : Int) : ℚ) / 16384 ≤ (n : ℚ) / 128 - af := by
      push_cast at h1 ⊢
      linarith
    have h3 : ((128 * m + 1 : Int) : ℚ) / 16384 ≤ toFloat ((n : ℚ) / 128 - af) :=
      le_roundBinary 24 (-149) _ _ (by norm_num) hz2 h2
    push_cast at h3
    linarith

/-- For readings on the grid of the sensor the float test of line 84 decides as
the exact band: the reading is filtered exactly when `temperature` is set and
the reading is more than `((now - lastgoodtime) / 1000) * 0.5` away from it. -/
theorem dallasFiltered_on_grid (r : ProbeRead) (d : dallasDataStruct)
    (hr : IsDallasReading r.temp) (hd : IsDallasReading d.temperature) :
    dallasFiltered r d = true ↔
      (d.temperature ≠ -127 ∧
        |r.temp - d.temperature| >
          ((usub r.millis83 d.lastgoodtime : Nat) : ℚ) / 1000 * (1 / 2)) := by
  obtain ⟨m, hm, hmt⟩ := hr
  obtain ⟨n, hn, hnt⟩ := hd
  have hU := band_upper_on_grid (usub r.millis83 d.lastgoodtime) m n hm hn
    (allowedtempdiff r.millis83 d)
    (fun y hy h => allowedtempdiff_le r.millis83 d y hy h)
    (fun y hy h => le_allowedtempdiff r.millis83 d y hy h)
  have hL := band_lower_on_grid (usub r.millis83 d.lastgoodtime) m n hm hn
    (allowedtempdiff r.millis83 d)
    (fun y hy h => allowedtempdiff_le r.millis83 d y hy h)
    (fun y hy h => le_allowedtempdiff r.millis83 d y hy h)
  unfold dallasFiltered
  rw [decide_eq_true_eq, hmt, hnt, hU, hL]
  constructor
  · rintro ⟨hset, h | h⟩
    · exact ⟨hset, lt_abs.mpr (Or.inl (by linarith))⟩
    · exact ⟨hset, lt_abs.mpr (Or.inr (by linarith))⟩
  · rintro ⟨hset, h⟩
    refine ⟨hset, ?_⟩
    rcases lt_abs.mp h with h | h
    · exact Or.inl (by linarith)
    · exact Or.inr (by linarith)

/-- A reading is never filtered while `temperature` is unset. -/
theorem dallasFiltered_unset (r : ProbeRead) (d : dallasDataStruct)
    (h : d.temperature = -127) : dallasFiltered r d = false := by
  unfold dallasFiltered
  rw [decide_eq_false_iff_not]
  rintro ⟨hset, -⟩
  exact hset h

/-- A reading on the grid of the sensor that lies within the exact band (bounds
included) is not filtered. -/
theorem dallasFiltered_within_on_grid (r : ProbeRead) (d : dallasDataStruct)
    (hr : IsDallasReading r.temp) (hd : IsDallasReading d.temperature)
    (h : |r.temp - d.temperature| ≤
      ((usub r.millis83 d.lastgoodtime : Nat) : ℚ) / 1000 * (1 / 2)) :
    dallasFiltered r d = false := by
  rw [Bool.eq_false_iff]
  intro hf
  have h2 := ((dallasFiltered_on_grid r d hr hd).mp hf).2
  exact absurd h (not_le.mpr h2)

/-- A reading on the grid of the sensor that lies outside the exact band of a
set `temperature` is filtered. -/
theorem dallasFiltered_outside_on_grid (r : ProbeRead) (d : dallasDataStruct)
    (hr : IsDallasReading r.temp) (hd : IsDallasReading d.temperature)
    (hset : d.temperature ≠ -127)
    (h : |r.temp - d.temperature| >
      ((usub r.millis83 d.lastgoodtime : Nat) : ℚ) / 1000 * (1 / 2)) :
    dallasFiltered r d = true :=
  (dallasFiltered_on_grid r d hr hd).mpr ⟨hset, h⟩

/-- The value 20.0 is on the grid of the sensor. -/
theorem IsDallasReading_20 : IsDallasReading 20 := ⟨2560, by norm_num, by norm_num⟩

/-- The value 25.0 is on the grid of the sensor. -/
theorem IsDallasReading_25 : IsDallasReading 25 := ⟨3200, by norm_num, by norm_num⟩

/-- C8: sentinel handling.  For every probe state and every reading below
`-120.0`, `readNewDallasTemp` leaves `temperature` and `lastgoodtime` of that
probe unchanged and publishes nothing for it (the only output is the
offline log line). -/
theorem C8_sentinel_keeps_state (updatenow : Bool) (r : ProbeRead) (d : dallasDataStruct)
    (h : r.temp < -120) :
    (dallasProbe updatenow r d).1.temperature = d.temperature ∧
      (dallasProbe updatenow r d).1.lastgoodtime = d.lastgoodtime ∧
      ∀ (a : String) (t : ℚ), DallasEvent.publish a t ∉ (dallasProbe updatenow r d).2 := by
  rw [dallasProbe_offline updatenow r d h]
  refine ⟨rfl, rfl, ?_⟩
  intro a t hm
  simp at hm

/-- Witness of C8: the disconnected-device value `-127` read while the
report-everything timer has elapsed. -/
theorem C8_sentinel_keeps_state_witness :
    (-127 : ℚ) < -120 ∧
      (dallasProbe true ⟨-127, 3000, 3001⟩ ⟨20, 1000, "28ff"⟩).1.temperature = 20 ∧
      (dallasProbe true ⟨-127, 3000, 3001⟩ ⟨20, 1000, "28ff"⟩).1.lastgoodtime = 1000 ∧
      ∀ (a : String) (t : ℚ),
        DallasEvent.publish a t ∉ (dallasProbe true ⟨-127, 3000, 3001⟩ ⟨20, 1000, "28ff"⟩).2 :=
  ⟨by norm_num, C8_sentinel_keeps_state true ⟨-127, 3000, 3001⟩ ⟨20, 1000, "28ff"⟩ (by norm_num)⟩

/-! ## Scenarios of the S0 pulse meter -/

/-- A tick with neither an accepted edge nor a due report leaves the channel as it is. -/
theorem s0Channel_quiet (cfg : s0SettingsStruct) (ovf now new_pulse : Nat) (d : s0DataStruct)
    (hi : usub new_pulse d.lastPulse ≤ 50) (hn : now ≤ d.nextReport) :
    s0Channel cfg ovf now new_pulse d = (d, none) := by
  unfold s0Channel
  rw [s0Edge_of_le cfg ovf now new_pulse d hi, s0Report_idle cfg ovf now d hn]

/-- C9 fails as stated (`ppkwh = 1000`): the edge at 4600 ms, 3600 ms after the
edge at 1000 ms, sets `watt = 1000` and no report is due in that tick; the next
report, at 9001 ms, comes 4401 ms after the edge and publishes the ceiling
`3600000000 / 4401 / 1000 = 817` W, not 1000 W. -/
theorem C9_counterexample :
    usub 4600 1000 = 3600 ∧
      s0Channel ⟨5, 1000, 60, false⟩ 0 4600 4600 ⟨0, 950, 1000, 9000⟩ =
        (⟨1, 1000, 4600, 9000⟩, none) ∧
      s0Channel ⟨5, 1000, 60, false⟩ 0 9001 4600 ⟨1, 1000, 4600, 9000⟩ =
        (⟨0, 817, 4600, 14001⟩, some ⟨some 1, 817⟩) := by
  have hw1 : wattOf 0 3600 1000 = 1000 := by
    rw [wattOf_eq 0 3600 1000 (by decide) (by decide)]
  have hw2 : wattOf 0 4401 1000 = 817 := by
    rw [wattOf_eq 0 4401 1000 (by decide) (by decide)]
  refine ⟨by decide, ?_, ?_⟩
  · simp [s0Channel, s0Report, s0Edge, usub, MINREPORTEDS0TIME, hw1]
  · simp [s0Channel, s0Report, s0Edge, usub, uadd, MINREPORTEDS0TIME, calcMaxWatt, hw2,
      inStandby, dlt, ddiv, dmul]
    norm_num

/-- C9 as amended (`ppkwh = 1000`): an edge accepted 3600 ms after a previously
accepted edge (`lastPulse` non-zero) sets `watt = 1000`; the next report for the
channel, emitted at `now2` in the same or a later tick with no further accepted
edge in between, publishes 1000 W provided it comes at least 1 ms and at most
3600 ms after that edge. -/
theorem C9_scenario_1000_watt (cfg : s0SettingsStruct) (ovf now new_pulse now2 : Nat)
    (d : s0DataStruct) (hp : cfg.ppkwh = 1000) (hl : 0 < d.lastPulse)
    (hi : usub new_pulse d.lastPulse = 3600)
    (hdue : (s0Edge cfg ovf now new_pulse d).nextReport < now2)
    (he1 : 0 < usub now2 new_pulse) (he2 : usub now2 new_pulse ≤ 3600) :
    (s0Edge cfg ovf now new_pulse d).watt = 1000 ∧
      ∃ r : S0Report,
        (s0Report cfg ovf now2 (s0Edge cfg ovf now new_pulse d)).2 = some r ∧ r.watt = 1000 := by
  have hi50 : 50 < usub new_pulse d.lastPulse := by omega
  have hw : (s0Edge cfg ovf now new_pulse d).watt = 1000 := by
    rw [s0Edge_watt cfg ovf now new_pulse d hi50, if_pos hl, hi, hp,
      wattOf_eq ovf 3600 1000 (by decide) (by decide)]
  have hlp := s0Edge_lastPulse cfg ovf now new_pulse d hi50
  have hc : 1000 ≤ calcMaxWatt cfg ovf now2 (s0Edge cfg ovf now new_pulse d) := by
    unfold calcMaxWatt
    rw [hlp, hp, wattOf_eq ovf _ 1000 he1 (by decide)]
    have h1 : 3600000000 / 3600 ≤ 3600000000 / usub now2 new_pulse :=
      Nat.div_le_div_left he2 he1
    have h2 : 3600000000 / 3600 / 1000 ≤ 3600000000 / usub now2 new_pulse / 1000 :=
      Nat.div_le_div_right h1
    exact h2
  refine ⟨hw, _, s0Report_published cfg ovf now2 _ hdue, ?_⟩
  show (s0Report cfg ovf now2 (s0Edge cfg ovf now new_pulse d)).1.watt = 1000
  rw [s0Report_watt cfg ovf now2 _ hdue, hw]
  split_ifs with h1 h2 h3
  · omega
  · rfl
  · omega
  · rfl

/-- Witness of C9 as amended: the edge at 14600 ms forces a report in its own
tick, 1 ms later. -/
theorem C9_scenario_1000_watt_witness :
    (1000 : Nat) = 1000 ∧ 0 < (11000 : Nat) ∧ usub 14600 11000 = 3600 ∧
      (s0Edge ⟨5, 1000, 60, false⟩ 0 14601 14600 ⟨3, 0, 11000, 70000⟩).nextReport < 14601 ∧
      0 < usub 14601 14600 ∧ usub 14601 14600 ≤ 3600 ∧
      (s0Edge ⟨5, 1000, 60, false⟩ 0 14601 14600 ⟨3, 0, 11000, 70000⟩).watt = 1000 ∧
      ∃ r : S0Report,
        (s0Report ⟨5, 1000, 60, false⟩ 0 14601
          (s0Edge ⟨5, 1000, 60, false⟩ 0 14601 14600 ⟨3, 0, 11000, 70000⟩)).2 = some r ∧
          r.watt = 1000 :=
  have hdue : (s0Edge ⟨5, 1000, 60, false⟩ 0 14601 14600 ⟨3, 0, 11000, 70000⟩).nextReport
      < 14601 := by
    simp [s0Edge, usub, MINREPORTEDS0TIME]
  ⟨rfl, by decide, by decide, hdue, by decide, by decide,
    C9_scenario_1000_watt ⟨5, 1000, 60, false⟩ 0 14601 14600 14601 ⟨3, 0, 11000, 70000⟩
      rfl (by decide) (by decide) hdue (by decide) (by decide)⟩

/-- The standby test of line 222 on integers: for positive `ppkwh` and
`lowerPowerInterval`, `watt` is below the threshold exactly when
`watt * (ppkwh * lowerPowerInterval) < 3600000`. -/
theorem inStandby_iff (cfg : s0SettingsStruct) (w : Nat) (hp : 0 < cfg.ppkwh)
    (hL : 0 < cfg.lowerPowerInterval) :
    inStandby cfg w = true ↔ w * (cfg.ppkwh * cfg.lowerPowerInterval) < 3600000 := by
  have hp' : cfg.ppkwh ≠ 0 := Nat.pos_iff_ne_zero.mp hp
  have hL' : cfg.lowerPowerInterval ≠ 0 := Nat.pos_iff_ne_zero.mp hL
  have hpq : (0 : ℚ) < cfg.ppkwh := by exact_mod_cast hp
  have hLq : (0 : ℚ) < cfg.lowerPowerInterval := by exact_mod_cast hL
  simp only [inStandby, ddiv, hp', hL', if_false, dlt, decide_eq_true_eq]
  rw [div_div, lt_div_iff₀ (mul_pos hpq hLq)]
  constructor
  · intro h
    have : ((w * (cfg.ppkwh * cfg.lowerPowerInterval) : Nat) : ℚ) < ((3600000 : Nat) : ℚ) := by
      push_cast; exact h
    exact_mod_cast this
  · intro h
    have : ((w * (cfg.ppkwh * cfg.lowerPowerInterval) : Nat) : ℚ) < ((3600000 : Nat) : ℚ) := by
      exact_mod_cast h
    push_cast at this; exact this

/-- C10 fails as stated (`ppkwh = 1000`, `lowerPowerInterval = 300`): with
`watt = 10` (below the threshold 12) and the last edge 600 s before `now`, the
ceiling is 6 W and half of it, 3 W, is lower than the current 10 W, yet the
report keeps 10 W: the code compares half of the current power (5) with the
ceiling (6). -/
theorem C10_counterexample :
    inStandby ⟨5, 1000, 300, false⟩ 10 = true ∧
      usub 700000 100000 = 600000 ∧
      calcMaxWatt ⟨5, 1000, 300, false⟩ 0 700000 ⟨0, 10, 100000, 699999⟩ = 6 ∧
      6 / 2 < 10 ∧
      (s0Report ⟨5, 1000, 300, false⟩ 0 700000 ⟨0, 10, 100000, 699999⟩).1.watt = 10 ∧
      (s0Report ⟨5, 1000, 300, false⟩ 0 700000 ⟨0, 10, 100000, 699999⟩).2 =
        some ⟨some 0, 10⟩ := by
  have hs : inStandby ⟨5, 1000, 300, false⟩ 10 = true := by
    rw [inStandby_iff _ _ (by decide) (by decide)]
    decide
  have hc : calcMaxWatt ⟨5, 1000, 300, false⟩ 0 700000 ⟨0, 10, 100000, 699999⟩ = 6 := by
    unfold calcMaxWatt
    rw [wattOf_eq 0 _ _ (by decide) (by decide)]
    decide
  have hw : (s0Report ⟨5, 1000, 300, false⟩ 0 700000 ⟨0, 10, 100000, 699999⟩).1.watt = 10 := by
    rw [s0Report_watt _ _ _ _ (by decide), if_pos hs, hc]
    decide
  refine ⟨hs, by decide, hc, by decide, hw, ?_⟩
  rw [s0Report_published _ _ _ _ (by decide), hw]
  simp [dmul, ddiv]

/-- C10 as amended: standby scenario.  For a channel with
`lowerPowerInterval = 300`, positive `ppkwh`, `watt` below the standby
threshold and the last accepted edge 600 s before `now`, a report is emitted
when due and sets `watt` to `ceiling / 2` if half of the current power exceeds
the ceiling and keeps the current power otherwise, where
`ceiling = (3600000000 / 600000) / ppkwh`; in this scenario half of the
current power never exceeds the ceiling, so the current power is kept and
published. -/
theorem C10_standby_scenario (cfg : s0SettingsStruct) (ovf now : Nat) (d : s0DataStruct)
    (hL : cfg.lowerPowerInterval = 300) (hp : 0 < cfg.ppkwh)
    (hs : inStandby cfg d.watt = true) (he : usub now d.lastPulse = 600000)
    (hdue : d.nextReport < now) :
    (s0Report cfg ovf now d).1.watt =
        (if 3600000000 / 600000 / cfg.ppkwh < d.watt / 2 then
          3600000000 / 600000 / cfg.ppkwh / 2 else d.watt) ∧
      (s0Report cfg ovf now d).1.watt = d.watt ∧
      ∃ r : S0Report, (s0Report cfg ovf now d).2 = some r ∧ r.watt = d.watt := by
  have hc : calcMaxWatt cfg ovf now d = 3600000000 / 600000 / cfg.ppkwh := by
    unfold calcMaxWatt
    rw [he, wattOf_eq ovf 600000 cfg.ppkwh (by decide) hp]
  have hlt : d.watt * (cfg.ppkwh * 300) < 3600000 := by
    have := (inStandby_iff cfg d.watt hp (by omega)).mp hs
    rwa [hL] at this
  have hkeep : ¬ 3600000000 / 600000 / cfg.ppkwh < d.watt / 2 := by
    intro hcon
    have h6 : 3600000000 / 600000 = 6000 := by decide
    rw [h6] at hcon
    have h1 : 6000 / cfg.ppkwh + 1 ≤ d.watt / 2 := hcon
    have h2 : 6000 < (6000 / cfg.ppkwh + 1) * cfg.ppkwh := by
      have := @Nat.lt_div_mul_add 6000 cfg.ppkwh hp
      simpa [add_mul, mul_comm] using this
    have h3 : (6000 / cfg.ppkwh + 1) * cfg.ppkwh ≤ d.watt / 2 * cfg.ppkwh :=
      Nat.mul_le_mul_right _ h1
    have h4 : d.watt / 2 * 2 ≤ d.watt := Nat.div_mul_le_self _ _
    nlinarith
  have hw : (s0Report cfg ovf now d).1.watt =
      (if 3600000000 / 600000 / cfg.ppkwh < d.watt / 2 then
        3600000000 / 600000 / cfg.ppkwh / 2 else d.watt) := by
    rw [s0Report_watt cfg ovf now d hdue, if_pos hs, hc]
  have hw2 : (s0Report cfg ovf now d).1.watt = d.watt := by
    rw [hw, if_neg hkeep]
  exact ⟨hw, hw2, _, s0Report_published cfg ovf now d hdue, hw2⟩

/-- Witness of C10 as amended: `ppkwh = 1000`, 10 W, last edge at 100 s, report at 700 s. -/
theorem C10_standby_scenario_witness :
    (300 : Nat) = 300 ∧ 0 < (1000 : Nat) ∧ inStandby ⟨5, 1000, 300, false⟩ 10 = true ∧
      usub 700000 100000 = 600000 ∧ (699999 : Nat) < 700000 ∧
      (s0Report ⟨5, 1000, 300, false⟩ 0 700000 ⟨0, 10, 100000, 699999⟩).1.watt =
        (if 3600000000 / 600000 / 1000 < 10 / 2 then 3600000000 / 600000 / 1000 / 2 else 10) ∧
      (s0Report ⟨5, 1000, 300, false⟩ 0 700000 ⟨0, 10, 100000, 699999⟩).1.watt = 10 ∧
      ∃ r : S0Report,
        (s0Report ⟨5, 1000, 300, false⟩ 0 700000 ⟨0, 10, 100000, 699999⟩).2 = some r ∧
          r.watt = 10 :=
  have hs : inStandby ⟨5, 1000, 300, false⟩ 10 = true := by
    rw [inStandby_iff _ _ (by decide) (by decide)]
    decide
  ⟨rfl, by decide, hs, by decide, by decide,
    C10_standby_scenario ⟨5, 1000, 300, false⟩ 0 700000 ⟨0, 10, 100000, 699999⟩
      rfl (by decide) hs (by decide) (by decide)⟩

/-! ## Claims on the configuration check and on the invariants of the channel state -/

/-- The integrity check on two channels: it fires exactly when one of the two
channels differs in `gpiopin`, `ppkwh` or `lowerPowerInterval`. -/
theorem s0SettingsCorrupt_pair (a0 a1 b0 b1 : s0SettingsStruct) :
    s0SettingsCorrupt [a0, a1] [b0, b1] = true ↔
      ((a0.gpiopin ≠ b0.gpiopin ∨ a0.ppkwh ≠ b0.ppkwh ∨
          a0.lowerPowerInterval ≠ b0.lowerPowerInterval) ∨
        (a1.gpiopin ≠ b1.gpiopin ∨ a1.ppkwh ≠ b1.ppkwh ∨
          a1.lowerPowerInterval ≠ b1.lowerPowerInterval)) := by
  have hr : List.range NUM_S0_COUNTERS = [0, 1] := by decide
  simp only [s0SettingsCorrupt, hr]
  simp [or_assoc]

/-- C11: configuration integrity check.  `s0Settings = [a0, a1]` are the live
settings, `actS0Settings = [b0, b1]` the captured ones.  If some channel
differs in `gpiopin`, `ppkwh` or `lowerPowerInterval`, `s0Loop` ends in the
restart signalled from `s0SettingsCorrupt`, before the channel loop, and
publishes no measurement in that tick; if the three fields match on both
channels, no restart is signalled and the channel loop runs. -/
theorem C11_config_integrity (a0 a1 b0 b1 : s0SettingsStruct) (ovf millisThisLoop : Nat)
    (new_pulse_s0 : Nat → Nat) (actS0Data : List s0DataStruct) :
    (((a0.gpiopin ≠ b0.gpiopin ∨ a0.ppkwh ≠ b0.ppkwh ∨
          a0.lowerPowerInterval ≠ b0.lowerPowerInterval) ∨
        (a1.gpiopin ≠ b1.gpiopin ∨ a1.ppkwh ≠ b1.ppkwh ∨
          a1.lowerPowerInterval ≠ b1.lowerPowerInterval)) →
      s0Loop [a0, a1] [b0, b1] ovf millisThisLoop new_pulse_s0 actS0Data = S0Outcome.restart ∧
        (s0Loop [a0, a1] [b0, b1] ovf millisThisLoop new_pulse_s0 actS0Data).published = []) ∧
    (((a0.gpiopin = b0.gpiopin ∧ a0.ppkwh = b0.ppkwh ∧
          a0.lowerPowerInterval = b0.lowerPowerInterval) ∧
        (a1.gpiopin = b1.gpiopin ∧ a1.ppkwh = b1.ppkwh ∧
          a1.lowerPowerInterval = b1.lowerPowerInterval)) →
      s0Loop [a0, a1] [b0, b1] ovf millisThisLoop new_pulse_s0 actS0Data =
        S0Outcome.done
          (s0Channels ovf millisThisLoop new_pulse_s0 0 [b0, b1] actS0Data).1
          (s0Channels ovf millisThisLoop new_pulse_s0 0 [b0, b1] actS0Data).2) := by
  constructor
  · intro h
    have hc := (s0SettingsCorrupt_pair a0 a1 b0 b1).mpr h
    have hl : s0Loop [a0, a1] [b0, b1] ovf millisThisLoop new_pulse_s0 actS0Data =
        S0Outcome.restart := by
      unfold s0Loop
      rw [if_pos hc]
    rw [hl]
    exact ⟨rfl, rfl⟩
  · intro h
    have hc : ¬ s0SettingsCorrupt [a0, a1] [b0, b1] = true := by
      rw [s0SettingsCorrupt_pair]
      rcases h with ⟨⟨h1, h2, h3⟩, h4, h5, h6⟩
      simp [h1, h2, h3, h4, h5, h6]
    unfold s0Loop
    rw [if_neg hc]

/-- Witness of C11: the live `ppkwh` of port 1 reads 2000 instead of the
captured 1000 while an edge and a report are due on both ports (restart,
nothing published); with matching settings the same tick publishes both
reports. -/
theorem C11_config_integrity_witness :
    ((2000 : Nat) ≠ 1000 ∧
      s0Loop [⟨5, 2000, 60, false⟩, ⟨6, 1000, 60, false⟩]
        [⟨5, 1000, 60, false⟩, ⟨6, 1000, 60, false⟩] 0 6001 (fun _ => 6000)
        [s0Initial 0, s0Initial 0] = S0Outcome.restart ∧
      (s0Loop [⟨5, 2000, 60, false⟩, ⟨6, 1000, 60, false⟩]
        [⟨5, 1000, 60, false⟩, ⟨6, 1000, 60, false⟩] 0 6001 (fun _ => 6000)
        [s0Initial 0, s0Initial 0]).published = []) ∧
    s0Loop [⟨5, 1000, 60, false⟩, ⟨6, 1000, 60, false⟩]
        [⟨5, 1000, 60, false⟩, ⟨6, 1000, 60, false⟩] 0 6001 (fun _ => 6000)
        [s0Initial 0, s0Initial 0] =
      S0Outcome.done [⟨0, 0, 6000, 66001⟩, ⟨0, 0, 6000, 66001⟩]
        [(1, ⟨some 1, 0⟩), (2, ⟨some 1, 0⟩)] :=
  ⟨⟨by decide,
      (C11_config_integrity ⟨5, 2000, 60, false⟩ ⟨6, 1000, 60, false⟩ ⟨5, 1000, 60, false⟩
        ⟨6, 1000, 60, false⟩ 0 6001 (fun _ => 6000) [s0Initial 0, s0Initial 0]).1
        (Or.inl (Or.inr (Or.inl (by decide))))⟩,
    ((C11_config_integrity ⟨5, 1000, 60, false⟩ ⟨6, 1000, 60, false⟩ ⟨5, 1000, 60, false⟩
      ⟨6, 1000, 60, false⟩ 0 6001 (fun _ => 6000) [s0Initial 0, s0Initial 0]).2
      ⟨⟨rfl, rfl, rfl⟩, rfl, rfl, rfl⟩).trans
      (by simp [s0Channels, s0Channel, s0Report, s0Edge, s0Initial, usub, uadd,
            MINREPORTEDS0TIME, inStandby, ddiv, dlt, dmul, calcMaxWatt])⟩

/-- The edge-handling step never lowers `pulses`. -/
theorem s0Edge_pulses_le (cfg : s0SettingsStruct) (ovf now new_pulse : Nat) (d : s0DataStruct) :
    d.pulses ≤ (s0Edge cfg ovf now new_pulse d).pulses := by
  by_cases h : 50 < usub new_pulse d.lastPulse
  · rw [s0Edge_pulses cfg ovf now new_pulse d h]
    exact Nat.le_succ _
  · rw [s0Edge_of_le cfg ovf now new_pulse d (Nat.not_lt.mp h)]

/-- The `nextReport` field after an accepted edge: 0 when the report is forced. -/
theorem s0Edge_nextReport (cfg : s0SettingsStruct) (ovf now new_pulse : Nat) (d : s0DataStruct)
    (hi : 50 < usub new_pulse d.lastPulse) :
    (s0Edge cfg ovf now new_pulse d).nextReport =
      if MINREPORTEDS0TIME < usub d.nextReport now then 0 else d.nextReport := by
  unfold s0Edge
  simp only [gt_iff_lt]
  rw [if_pos hi]
  split_ifs <;> rfl

/-- Without wrap-around of the schedule, the report step never moves `nextReport`
back; `(1000 * lowerPowerInterval) % 2^32` is the interval as the 32-bit
product computes it. -/
theorem s0Report_nextReport_le (cfg : s0SettingsStruct) (ovf now : Nat) (d : s0DataStruct)
    (hw1 : now + (1000 * cfg.lowerPowerInterval) % 4294967296 < 4294967296)
    (hw2 : now + MINREPORTEDS0TIME < 4294967296) :
    d.nextReport ≤ (s0Report cfg ovf now d).1.nextReport := by
  by_cases h : d.nextReport < now
  · rw [s0Report_nextReport cfg ovf now d h]
    unfold uadd
    split_ifs
    · omega
    · rw [Nat.mod_eq_of_lt hw2]; omega
  · rw [s0Report_idle cfg ovf now d (Nat.not_lt.mp h)]

/-- The report step never raises `watt`. -/
theorem s0Report_watt_le (cfg : s0SettingsStruct) (ovf now : Nat) (d : s0DataStruct) :
    (s0Report cfg ovf now d).1.watt ≤ d.watt := by
  by_cases h : d.nextReport < now
  · rw [s0Report_watt cfg ovf now d h]
    split_ifs with h1 h2 h3
    · have := Nat.div_le_self d.watt 2
      have := Nat.div_le_self (calcMaxWatt cfg ovf now d) 2
      omega
    · exact Nat.le_refl _
    · exact Nat.le_of_lt h3
    · exact Nat.le_refl _
  · rw [s0Report_idle cfg ovf now d (Nat.not_lt.mp h)]

/-- C12: cumulative channel.  With `sum_s0_watthour` true the report step of
`s0Loop`, whether a report is due or not, leaves `pulses` unchanged, and
`pulses` after a tick is never below `pulses` before it. -/
theorem C12_cumulative_never_decreases (cfg : s0SettingsStruct)
    (ovf millisThisLoop new_pulse : Nat) (d : s0DataStruct)
    (hs : cfg.sum_s0_watthour = true) :
    (s0Report cfg ovf millisThisLoop d).1.pulses = d.pulses ∧
      d.pulses ≤ (s0Channel cfg ovf millisThisLoop new_pulse d).1.pulses := by
  have hrep : ∀ e : s0DataStruct, (s0Report cfg ovf millisThisLoop e).1.pulses = e.pulses := by
    intro e
    by_cases h : e.nextReport < millisThisLoop
    · rw [s0Report_pulses cfg ovf millisThisLoop e h, if_pos hs]
    · rw [s0Report_idle cfg ovf millisThisLoop e (Nat.not_lt.mp h)]
  refine ⟨hrep d, ?_⟩
  unfold s0Channel
  rw [hrep]
  exact s0Edge_pulses_le cfg ovf millisThisLoop new_pulse d

/-- Witness of C12: a cumulative channel with 41 pulses accepts an edge and
reports in the same tick; 42 pulses remain. -/
theorem C12_cumulative_never_decreases_witness :
    (true = true) ∧
      (s0Report ⟨5, 1000, 60, true⟩ 0 9500 ⟨41, 0, 1000, 9000⟩).1.pulses = 41 ∧
      41 ≤ (s0Channel ⟨5, 1000, 60, true⟩ 0 9500 9400 ⟨41, 0, 1000, 9000⟩).1.pulses :=
  ⟨rfl, C12_cumulative_never_decreases ⟨5, 1000, 60, true⟩ 0 9500 9400 ⟨41, 0, 1000, 9000⟩ rfl⟩

/-- C13: `nextReport` invariant.  Assume the schedule does not wrap around
(`now` plus the standby interval in ms, as the 32-bit product computes it, and
`now + 5000` fit in 32 bits).  In a tick
without an accepted edge `nextReport` after the tick is at least its value
before; if `nextReport` moves back in a tick, then an edge was accepted in
that tick and it forced the report (`nextReport - now > 5000`, so `nextReport`
was set to 0), and with `now > 0` the report is published in that tick. -/
theorem C13_nextReport_monotone (cfg : s0SettingsStruct) (ovf millisThisLoop new_pulse : Nat)
    (d : s0DataStruct)
    (hw1 : millisThisLoop + (1000 * cfg.lowerPowerInterval) % 4294967296 < 4294967296)
    (hw2 : millisThisLoop + MINREPORTEDS0TIME < 4294967296) :
    (usub new_pulse d.lastPulse ≤ 50 →
        d.nextReport ≤ (s0Channel cfg ovf millisThisLoop new_pulse d).1.nextReport) ∧
      ((s0Channel cfg ovf millisThisLoop new_pulse d).1.nextReport < d.nextReport →
        50 < usub new_pulse d.lastPulse ∧
          MINREPORTEDS0TIME < usub d.nextReport millisThisLoop ∧
          (0 < millisThisLoop →
            (s0Channel cfg ovf millisThisLoop new_pulse d).2.isSome = true)) := by
  have hquiet : usub new_pulse d.lastPulse ≤ 50 →
      d.nextReport ≤ (s0Channel cfg ovf millisThisLoop new_pulse d).1.nextReport := by
    intro hi
    unfold s0Channel
    rw [s0Edge_of_le cfg ovf millisThisLoop new_pulse d hi]
    exact s0Report_nextReport_le cfg ovf millisThisLoop d hw1 hw2
  refine ⟨hquiet, ?_⟩
  intro hback
  have hi : 50 < usub new_pulse d.lastPulse := by
    by_contra hn
    have := hquiet (Nat.not_lt.mp hn)
    omega
  have hf : MINREPORTEDS0TIME < usub d.nextReport millisThisLoop := by
    by_contra hn
    have he : (s0Edge cfg ovf millisThisLoop new_pulse d).nextReport = d.nextReport := by
      rw [s0Edge_nextReport cfg ovf millisThisLoop new_pulse d hi, if_neg hn]
    have hle := s0Report_nextReport_le cfg ovf millisThisLoop
      (s0Edge cfg ovf millisThisLoop new_pulse d) hw1 hw2
    rw [he] at hle
    unfold s0Channel at hback
    omega
  refine ⟨hi, hf, ?_⟩
  intro hnow
  unfold s0Channel
  rw [s0Report_some_iff, s0Edge_nextReport cfg ovf millisThisLoop new_pulse d hi, if_pos hf]
  exact hnow

/-- Witness of C13: a standby channel with a due report but no edge moves
`nextReport` forward; a standby channel (`nextReport = 65001`) that accepts an
edge 5100 ms after the last one is forced to report at 10101 ms, in the active
regime, and `nextReport` moves back to 15101. -/
theorem C13_nextReport_monotone_witness :
    (usub 1000 1000 ≤ 50 ∧
      (10000 : Nat) ≤
        (s0Channel ⟨5, 1000, 60, false⟩ 0 10001 1000 ⟨0, 0, 1000, 10000⟩).1.nextReport) ∧
    ((s0Channel ⟨5, 1000, 60, false⟩ 0 10101 10100 ⟨0, 10, 5000, 65001⟩).1.nextReport < 65001 ∧
      50 < usub 10100 5000 ∧ MINREPORTEDS0TIME < usub 65001 10101 ∧
      (s0Channel ⟨5, 1000, 60, false⟩ 0 10101 10100 ⟨0, 10, 5000, 65001⟩).2.isSome = true) :=
  have hdue : (s0Edge ⟨5, 1000, 60, false⟩ 0 10101 10100 ⟨0, 10, 5000, 65001⟩).nextReport
      < 10101 := by
    rw [s0Edge_nextReport _ _ _ _ _ (by decide)]
    decide
  have hwatt : (s0Edge ⟨5, 1000, 60, false⟩ 0 10101 10100 ⟨0, 10, 5000, 65001⟩).watt = 705 := by
    rw [s0Edge_watt _ _ _ _ _ (by decide), if_pos (by decide),
      wattOf_eq _ _ _ (by decide) (by decide)]
    decide
  have hact : ¬ inStandby ⟨5, 1000, 60, false⟩ 705 = true := by
    rw [inStandby_iff _ _ (by decide) (by decide)]
    decide
  have hback :
      (s0Channel ⟨5, 1000, 60, false⟩ 0 10101 10100 ⟨0, 10, 5000, 65001⟩).1.nextReport
        < 65001 := by
    unfold s0Channel
    rw [s0Report_nextReport _ _ _ _ hdue, hwatt, if_neg hact]
    decide
  have h := (C13_nextReport_monotone ⟨5, 1000, 60, false⟩ 0 10101 10100 ⟨0, 10, 5000, 65001⟩
    (by decide) (by decide)).2 hback
  ⟨⟨by decide,
      (C13_nextReport_monotone ⟨5, 1000, 60, false⟩ 0 10001 1000 ⟨0, 0, 1000, 10000⟩
        (by decide) (by decide)).1 (by decide)⟩,
    hback, h.1, h.2.1, h.2.2 (by decide)⟩

/-- C14: power only decreases without a new edge.  In a tick without an
accepted edge `watt` after the tick is at most `watt` before it. -/
theorem C14_watt_only_decreases (cfg : s0SettingsStruct) (ovf millisThisLoop new_pulse : Nat)
    (d : s0DataStruct) (hi : usub new_pulse d.lastPulse ≤ 50) :
    (s0Channel cfg ovf millisThisLoop new_pulse d).1.watt ≤ d.watt := by
  unfold s0Channel
  rw [s0Edge_of_le cfg ovf millisThisLoop new_pulse d hi]
  exact s0Report_watt_le cfg ovf millisThisLoop d

/-- Witness of C14: 1000 W, last edge 7200 ms ago, no new edge: the active clamp
lowers the power at the report. -/
theorem C14_watt_only_decreases_witness :
    usub 4600 4600 ≤ 50 ∧
      (s0Channel ⟨5, 1000, 60, false⟩ 0 11800 4600 ⟨1, 1000, 4600, 9000⟩).1.watt ≤ 1000 :=
  ⟨by decide,
    C14_watt_only_decreases ⟨5, 1000, 60, false⟩ 0 11800 4600 ⟨1, 1000, 4600, 9000⟩ (by decide)⟩

/-! ## Claims on the report step -/

/-- C15: report scheduling.  Whenever a tick publishes a report for a channel,
`nextReport` afterwards is the 32-bit sum `now + 1000 * lowerPowerInterval` if
`watt` at the report, before clamping, is below the standby threshold, and the
32-bit sum `now + 5000` otherwise; when the sum fits in 32 bits it is the
plain sum. -/
theorem C15_report_schedule (cfg : s0SettingsStruct) (ovf millisThisLoop new_pulse : Nat)
    (d : s0DataStruct)
    (hr : (s0Channel cfg ovf millisThisLoop new_pulse d).2.isSome = true) :
    (inStandby cfg (s0Edge cfg ovf millisThisLoop new_pulse d).watt = true →
        (s0Channel cfg ovf millisThisLoop new_pulse d).1.nextReport =
            uadd millisThisLoop (1000 * cfg.lowerPowerInterval) ∧
          (millisThisLoop + 1000 * cfg.lowerPowerInterval < 4294967296 →
            (s0Channel cfg ovf millisThisLoop new_pulse d).1.nextReport =
              millisThisLoop + 1000 * cfg.lowerPowerInterval)) ∧
      (inStandby cfg (s0Edge cfg ovf millisThisLoop new_pulse d).watt = false →
        (s0Channel cfg ovf millisThisLoop new_pulse d).1.nextReport =
            uadd millisThisLoop 5000 ∧
          (millisThisLoop + 5000 < 4294967296 →
            (s0Channel cfg ovf millisThisLoop new_pulse d).1.nextReport =
              millisThisLoop + 5000)) := by
  unfold s0Channel at hr ⊢
  have hdue := (s0Report_some_iff cfg ovf millisThisLoop _).mp hr
  rw [s0Report_nextReport cfg ovf millisThisLoop _ hdue]
  constructor
  · intro hs
    rw [if_pos hs]
    refine ⟨rfl, ?_⟩
    intro hw
    exact Nat.mod_eq_of_lt hw
  · intro hs
    rw [hs]
    refine ⟨rfl, ?_⟩
    intro hw
    exact Nat.mod_eq_of_lt hw

/-- Witness of C15: a standby channel (0 W) reports at 10001 ms and is
scheduled for 70001 ms. -/
theorem C15_report_schedule_witness :
    (s0Channel ⟨5, 1000, 60, false⟩ 0 10001 1000 ⟨0, 0, 1000, 10000⟩).2.isSome = true ∧
      inStandby ⟨5, 1000, 60, false⟩
        (s0Edge ⟨5, 1000, 60, false⟩ 0 10001 1000 ⟨0, 0, 1000, 10000⟩).watt = true ∧
      (s0Channel ⟨5, 1000, 60, false⟩ 0 10001 1000 ⟨0, 0, 1000, 10000⟩).1.nextReport =
        uadd 10001 (1000 * 60) ∧
      (s0Channel ⟨5, 1000, 60, false⟩ 0 10001 1000 ⟨0, 0, 1000, 10000⟩).1.nextReport =
        10001 + 1000 * 60 :=
  have hr : (s0Channel ⟨5, 1000, 60, false⟩ 0 10001 1000 ⟨0, 0, 1000, 10000⟩).2.isSome
      = true := by
    unfold s0Channel
    rw [s0Report_some_iff]
    decide
  have hs : inStandby ⟨5, 1000, 60, false⟩
      (s0Edge ⟨5, 1000, 60, false⟩ 0 10001 1000 ⟨0, 0, 1000, 10000⟩).watt = true := by
    rw [inStandby_iff _ _ (by decide) (by decide)]
    decide
  have h := (C15_report_schedule ⟨5, 1000, 60, false⟩ 0 10001 1000 ⟨0, 0, 1000, 10000⟩ hr).1 hs
  ⟨hr, hs, h.1, h.2 (by decide)⟩

/-- C16: standby clamp.  In a due report of the standby regime, with
`calcMaxWatt` the ceiling and integer halving as in the code: if half of the
current `watt` exceeds the ceiling, `watt` becomes `calcMaxWatt / 2`, otherwise
`watt` is unchanged; in both cases half of the resulting `watt` does not exceed
the ceiling. -/
theorem C16_standby_clamp (cfg : s0SettingsStruct) (ovf millisThisLoop : Nat)
    (d : s0DataStruct) (hdue : d.nextReport < millisThisLoop)
    (hs : inStandby cfg d.watt = true) :
    (calcMaxWatt cfg ovf millisThisLoop d < d.watt / 2 →
        (s0Report cfg ovf millisThisLoop d).1.watt = calcMaxWatt cfg ovf millisThisLoop d / 2) ∧
      (¬ calcMaxWatt cfg ovf millisThisLoop d < d.watt / 2 →
        (s0Report cfg ovf millisThisLoop d).1.watt = d.watt) ∧
      (s0Report cfg ovf millisThisLoop d).1.watt / 2 ≤ calcMaxWatt cfg ovf millisThisLoop d := by
  rw [s0Report_watt cfg ovf millisThisLoop d hdue, if_pos hs]
  refine ⟨fun h => if_pos h, fun h => if_neg h, ?_⟩
  split_ifs with h
  · have h1 := Nat.div_le_self (calcMaxWatt cfg ovf millisThisLoop d / 2) 2
    have h2 := Nat.div_le_self (calcMaxWatt cfg ovf millisThisLoop d) 2
    omega
  · exact Nat.not_lt.mp h

/-- Witness of C16: `ppkwh = 1000`, standby interval 300 s, 11 W, last edge
1200 s ago: the ceiling is 3 W, half of 11 exceeds it and `watt` becomes 1. -/
theorem C16_standby_clamp_witness :
    (1299999 : Nat) < 1300000 ∧ inStandby ⟨5, 1000, 300, false⟩ 11 = true ∧
      calcMaxWatt ⟨5, 1000, 300, false⟩ 0 1300000 ⟨0, 11, 100000, 1299999⟩ < 11 / 2 ∧
      (s0Report ⟨5, 1000, 300, false⟩ 0 1300000 ⟨0, 11, 100000, 1299999⟩).1.watt =
        calcMaxWatt ⟨5, 1000, 300, false⟩ 0 1300000 ⟨0, 11, 100000, 1299999⟩ / 2 ∧
      (s0Report ⟨5, 1000, 300, false⟩ 0 1300000 ⟨0, 11, 100000, 1299999⟩).1.watt / 2 ≤
        calcMaxWatt ⟨5, 1000, 300, false⟩ 0 1300000 ⟨0, 11, 100000, 1299999⟩ :=
  have hs : inStandby ⟨5, 1000, 300, false⟩ 11 = true := by
    rw [inStandby_iff _ _ (by decide) (by decide)]
    decide
  have hc : calcMaxWatt ⟨5, 1000, 300, false⟩ 0 1300000 ⟨0, 11, 100000, 1299999⟩ < 11 / 2 := by
    unfold calcMaxWatt
    rw [wattOf_eq 0 _ _ (by decide) (by decide)]
    decide
  have h := C16_standby_clamp ⟨5, 1000, 300, false⟩ 0 1300000 ⟨0, 11, 100000, 1299999⟩
    (by decide) hs
  ⟨by decide, hs, hc, h.1 hc, h.2.2⟩

/-- C17: active clamp.  In a due report of the active regime the resulting
`watt` is the minimum of the current `watt` and the ceiling `calcMaxWatt`, the
published power is that value and never exceeds the ceiling; for a non-zero
elapsed time `now - lastPulse` (32-bit) and positive `ppkwh` the ceiling is the
integer part of `(3600000000 / (now - lastPulse)) / ppkwh`. -/
theorem C17_active_clamp (cfg : s0SettingsStruct) (ovf millisThisLoop : Nat)
    (d : s0DataStruct) (hdue : d.nextReport < millisThisLoop)
    (hs : inStandby cfg d.watt = false) :
    (s0Report cfg ovf millisThisLoop d).1.watt =
        min d.watt (calcMaxWatt cfg ovf millisThisLoop d) ∧
      (∃ r : S0Report, (s0Report cfg ovf millisThisLoop d).2 = some r ∧
        r.watt = min d.watt (calcMaxWatt cfg ovf millisThisLoop d) ∧
        r.watt ≤ calcMaxWatt cfg ovf millisThisLoop d) ∧
      (0 < usub millisThisLoop d.lastPulse → 0 < cfg.ppkwh →
        calcMaxWatt cfg ovf millisThisLoop d =
          3600000000 / usub millisThisLoop d.lastPulse / cfg.ppkwh) := by
  have hw : (s0Report cfg ovf millisThisLoop d).1.watt =
      min d.watt (calcMaxWatt cfg ovf millisThisLoop d) := by
    rw [s0Report_watt cfg ovf millisThisLoop d hdue, hs]
    simp only [Bool.false_eq_true, if_false]
    split_ifs with h
    · exact (Nat.min_eq_right (Nat.le_of_lt h)).symm
    · exact (Nat.min_eq_left (Nat.not_lt.mp h)).symm
  refine ⟨hw, ⟨_, s0Report_published cfg ovf millisThisLoop d hdue, hw, ?_⟩, ?_⟩
  · show (s0Report cfg ovf millisThisLoop d).1.watt ≤ _
    rw [hw]
    exact Nat.min_le_right _ _
  · intro he hp
    exact wattOf_eq ovf _ _ he hp

/-- Witness of C17: 1000 W, last edge 7200 ms before the report: 500 W is published. -/
theorem C17_active_clamp_witness :
    (9000 : Nat) < 11800 ∧ inStandby ⟨5, 1000, 60, false⟩ 1000 = false ∧
      (s0Report ⟨5, 1000, 60, false⟩ 0 11800 ⟨1, 1000, 4600, 9000⟩).1.watt =
        min 1000 (calcMaxWatt ⟨5, 1000, 60, false⟩ 0 11800 ⟨1, 1000, 4600, 9000⟩) ∧
      (∃ r : S0Report, (s0Report ⟨5, 1000, 60, false⟩ 0 11800 ⟨1, 1000, 4600, 9000⟩).2 = some r ∧
        r.watt = min 1000 (calcMaxWatt ⟨5, 1000, 60, false⟩ 0 11800 ⟨1, 1000, 4600, 9000⟩) ∧
        r.watt ≤ calcMaxWatt ⟨5, 1000, 60, false⟩ 0 11800 ⟨1, 1000, 4600, 9000⟩) ∧
      calcMaxWatt ⟨5, 1000, 60, false⟩ 0 11800 ⟨1, 1000, 4600, 9000⟩ =
        3600000000 / usub 11800 4600 / 1000 ∧
      3600000000 / usub 11800 4600 / 1000 = 500 :=
  have hs : inStandby ⟨5, 1000, 60, false⟩ 1000 = false := by
    rw [← Bool.not_eq_true, inStandby_iff _ _ (by decide) (by decide)]
    decide
  have h := C17_active_clamp ⟨5, 1000, 60, false⟩ 0 11800 ⟨1, 1000, 4600, 9000⟩ (by decide) hs
  ⟨by decide, hs, h.1, h.2.1, h.2.2 (by decide) (by decide), by decide⟩

/-- C18 fails as stated (standby interval 2 s, `ppkwh = 1000`, 3600 W): at
6500 ms an edge is accepted while `nextReport = 10000` is 3500 ms ahead, more
than the standby interval of 2000 ms; the code compares with 5000 ms, leaves
`nextReport` as it is and publishes nothing in that tick. -/
theorem C18_counterexample :
    0 < (6500 : Nat) ∧ 50 < usub 6500 5500 ∧
      1000 * (2 : Nat) < usub 10000 6500 ∧
      s0Channel ⟨5, 1000, 2, false⟩ 0 6500 6500 ⟨1, 3600, 5500, 10000⟩ =
        (⟨2, 3600, 6500, 10000⟩, none) := by
  have hw : wattOf 0 1000 1000 = 3600 := by
    rw [wattOf_eq 0 1000 1000 (by decide) (by decide)]
  refine ⟨by decide, by decide, by decide, ?_⟩
  simp [s0Channel, s0Report, s0Edge, usub, MINREPORTEDS0TIME, hw]

/-- C18 as amended: prompt report on a live pulse.  In a tick with `now > 0`
in which an edge is accepted while `nextReport` is more than the minimum
report interval of 5000 ms ahead of `now` (32-bit difference
`nextReport - now`), `nextReport` is set to 0 by the edge-handling step and a
report for the channel is published in that same tick. -/
theorem C18_prompt_report (cfg : s0SettingsStruct) (ovf millisThisLoop new_pulse : Nat)
    (d : s0DataStruct) (hnow : 0 < millisThisLoop)
    (hi : 50 < usub new_pulse d.lastPulse)
    (hf : MINREPORTEDS0TIME < usub d.nextReport millisThisLoop) :
    (s0Edge cfg ovf millisThisLoop new_pulse d).nextReport = 0 ∧
      (s0Channel cfg ovf millisThisLoop new_pulse d).2.isSome = true := by
  have h0 : (s0Edge cfg ovf millisThisLoop new_pulse d).nextReport = 0 := by
    rw [s0Edge_nextReport cfg ovf millisThisLoop new_pulse d hi, if_pos hf]
  refine ⟨h0, ?_⟩
  unfold s0Channel
  rw [s0Report_some_iff, h0]
  exact hnow

/-- Witness of C18 as amended: standby interval 60 s, `nextReport` 54900 ms
ahead, an edge 5100 ms after the last one. -/
theorem C18_prompt_report_witness :
    0 < (10101 : Nat) ∧ 50 < usub 10100 5000 ∧ MINREPORTEDS0TIME < usub 65001 10101 ∧
      (s0Edge ⟨5, 1000, 60, false⟩ 0 10101 10100 ⟨0, 10, 5000, 65001⟩).nextReport = 0 ∧
      (s0Channel ⟨5, 1000, 60, false⟩ 0 10101 10100 ⟨0, 10, 5000, 65001⟩).2.isSome = true :=
  ⟨by decide, by decide, by decide,
    C18_prompt_report ⟨5, 1000, 60, false⟩ 0 10101 10100 ⟨0, 10, 5000, 65001⟩
      (by decide) (by decide) (by decide)⟩

/-! ## Claims on temperature acceptance and publication -/

/-- C20: temperature publication rule.  `updatenow` is the flag of line 73,
`millis() > nextalldatatime_dallas`.  A candidate is accepted when it passes
the two tests of the code: it is at least `-120.0` (line 80) and it is not
filtered by the test of line 84.  An accepted candidate is published, under
the address of its probe, if and only if it differs from the stored
`temperature` or the report-everything timer has elapsed; a sentinel or
rejected reading publishes nothing.  For readings on the grid of the sensor
the accepted candidates are those of at least `-120.0` for which `temperature`
is unset or lies within `((now - lastgoodtime) / 1000) * 0.5` of the
candidate. -/
theorem C20_publication_rule (millis73 : Nat) (g : DallasTimer) (r : ProbeRead)
    (d : dallasDataStruct) :
    ((-120 ≤ r.temp ∧ dallasFiltered r d = false) →
        ((DallasEvent.publish d.address r.temp ∈
            (dallasProbe (decide (millis73 > g.nextalldatatime_dallas)) r d).2 ↔
          (r.temp ≠ d.temperature ∨ millis73 > g.nextalldatatime_dallas)) ∧
        ∀ (a : String) (t : ℚ),
          DallasEvent.publish a t ∈
              (dallasProbe (decide (millis73 > g.nextalldatatime_dallas)) r d).2 →
            a = d.address ∧ t = r.temp)) ∧
      (¬ (-120 ≤ r.temp ∧ dallasFiltered r d = false) →
        ∀ (a : String) (t : ℚ),
          DallasEvent.publish a t ∉
            (dallasProbe (decide (millis73 > g.nextalldatatime_dallas)) r d).2) ∧
      (IsDallasReading r.temp → IsDallasReading d.temperature →
        ((-120 ≤ r.temp ∧ dallasFiltered r d = false) ↔
          (-120 ≤ r.temp ∧ (d.temperature = -127 ∨
            |r.temp - d.temperature| ≤
              ((usub r.millis83 d.lastgoodtime : Nat) : ℚ) / 1000 * (1 / 2))))) := by
  refine ⟨?_, ?_, ?_⟩
  · rintro ⟨hs, hnf⟩
    rw [dallasProbe_accepted _ r d (not_lt.mpr hs) hnf]
    by_cases hc : decide (millis73 > g.nextalldatatime_dallas) = true ∨ d.temperature ≠ r.temp
    · rw [if_pos hc]
      refine ⟨⟨fun _ => ?_, fun _ => by simp⟩, ?_⟩
      · rcases hc with h | h
        · exact Or.inr (of_decide_eq_true h)
        · exact Or.inl (fun e => h e.symm)
      · intro a t hm
        simpa using hm
    · rw [if_neg hc]
      refine ⟨⟨fun hm => by simp at hm, fun h => ?_⟩, fun a t hm => by simp at hm⟩
      exfalso
      apply hc
      rcases h with h | h
      · exact Or.inr (fun e => h e.symm)
      · exact Or.inl (decide_eq_true h)
  · intro hna a t
    by_cases hs : r.temp < -120
    · rw [dallasProbe_offline _ r d hs]
      simp
    · have hf : dallasFiltered r d = true := by
        cases hfd : dallasFiltered r d
        · exact absurd ⟨not_lt.mp hs, hfd⟩ hna
        · rfl
      rw [dallasProbe_filtered _ r d hs hf]
      simp
  · intro hr hd
    constructor
    · rintro ⟨hs, hnf⟩
      refine ⟨hs, ?_⟩
      by_cases hset : d.temperature = -127
      · exact Or.inl hset
      · right
        by_contra hc
        have hf := dallasFiltered_outside_on_grid r d hr hd hset (not_le.mp hc)
        rw [hnf] at hf
        exact Bool.false_ne_true hf
    · rintro ⟨hs, hok⟩
      refine ⟨hs, ?_⟩
      rcases hok with h | h
      · exact dallasFiltered_unset r d h
      · exact dallasFiltered_within_on_grid r d hr hd h

/-- Witness of C20: an unchanged value of 20.0 is published when the timer has
elapsed (`millis() = 40000 > 30000`), and a jump to 25.0 within 2 s is
rejected and not published. -/
theorem C20_publication_rule_witness :
    ((-120 : ℚ) ≤ 20 ∧ dallasFiltered ⟨20, 3000, 3001⟩ ⟨20, 1000, "28ff"⟩ = false) ∧
      (DallasEvent.publish "28ff" 20 ∈
          (dallasProbe (decide (40000 > 30000)) ⟨20, 3000, 3001⟩ ⟨20, 1000, "28ff"⟩).2 ↔
        ((20 : ℚ) ≠ 20 ∨ 40000 > 30000)) ∧
      ¬ ((-120 : ℚ) ≤ 25 ∧ dallasFiltered ⟨25, 3000, 3001⟩ ⟨20, 1000, "28ff"⟩ = false) ∧
      (∀ (a : String) (t : ℚ),
        DallasEvent.publish a t ∉
          (dallasProbe (decide (40000 > 30000)) ⟨25, 3000, 3001⟩ ⟨20, 1000, "28ff"⟩).2) ∧
      IsDallasReading 25 ∧ IsDallasReading 20 ∧
      (((-120 : ℚ) ≤ 25 ∧ dallasFiltered ⟨25, 3000, 3001⟩ ⟨20, 1000, "28ff"⟩ = false) ↔
        ((-120 : ℚ) ≤ 25 ∧ ((20 : ℚ) = -127 ∨
          |(25 : ℚ) - 20| ≤ ((usub 3000 1000 : Nat) : ℚ) / 1000 * (1 / 2)))) :=
  have hu : usub 3000 1000 = 2000 := by decide
  have h1 : (-120 : ℚ) ≤ 20 ∧ dallasFiltered ⟨20, 3000, 3001⟩ ⟨20, 1000, "28ff"⟩ = false :=
    ⟨by norm_num,
      dallasFiltered_within_on_grid ⟨20, 3000, 3001⟩ ⟨20, 1000, "28ff"⟩ IsDallasReading_20
        IsDallasReading_20 (by
          dsimp only
          rw [hu]
          norm_num)⟩
  have h2 : ¬ ((-120 : ℚ) ≤ 25 ∧
      dallasFiltered ⟨25, 3000, 3001⟩ ⟨20, 1000, "28ff"⟩ = false) := by
    rintro ⟨-, h⟩
    have hf := dallasFiltered_outside_on_grid ⟨25, 3000, 3001⟩ ⟨20, 1000, "28ff"⟩
      IsDallasReading_25 IsDallasReading_20 (by norm_num) (by
        dsimp only
        rw [hu]
        norm_num)
    rw [h] at hf
    exact Bool.false_ne_true hf
  ⟨h1,
    ((C20_publication_rule 40000 ⟨30000, 30000⟩ ⟨20, 3000, 3001⟩ ⟨20, 1000, "28ff"⟩).1 h1).1,
    h2,
    (C20_publication_rule 40000 ⟨30000, 30000⟩ ⟨25, 3000, 3001⟩ ⟨20, 1000, "28ff"⟩).2.1 h2,
    IsDallasReading_25, IsDallasReading_20,
    (C20_publication_rule 40000 ⟨30000, 30000⟩ ⟨25, 3000, 3001⟩ ⟨20, 1000, "28ff"⟩).2.2
      IsDallasReading_25 IsDallasReading_20⟩

/-! ## Claims on the periodic full report -/

/-- Every event of the iteration for probe `i` is among the events of the probe loop. -/
theorem dallasProbes_events_mem (updatenow : Bool) (reads : Nat → ProbeRead) (e : DallasEvent) :
    ∀ (ds : List dallasDataStruct) (k i : Nat) (hi : i < ds.length),
      e ∈ (dallasProbe updatenow (reads (k + i)) ds[i]).2 →
        e ∈ (dallasProbes updatenow reads k ds).2 := by
  intro ds
  induction ds with
  | nil => intro k i hi; exact absurd hi (Nat.not_lt_zero i)
  | cons d ds ih =>
    intro k i hi hm
    unfold dallasProbes
    cases i with
    | zero =>
      simp only [List.getElem_cons_zero, Nat.add_zero] at hm
      exact List.mem_append_left _ hm
    | succ j =>
      simp only [List.getElem_cons_succ] at hm
      have hj : j < ds.length := Nat.lt_of_succ_lt_succ hi
      have hk : k + (j + 1) = k + 1 + j := by omega
      rw [hk] at hm
      exact List.mem_append_right _ (ih (k + 1) j hj hm)

/-- The timer after a call of `readNewDallasTemp`. -/
theorem readNewDallasTemp_timer (millis73 millis75 : Nat) (reads : Nat → ProbeRead)
    (g : DallasTimer) (ds : List dallasDataStruct) :
    (readNewDallasTemp millis73 millis75 reads g ds).1 =
      if millis73 > g.nextalldatatime_dallas then
        { g with nextalldatatime_dallas := uadd millis75 (1000 * g.updateAllDallasTime) }
      else g := by
  unfold readNewDallasTemp
  by_cases h : millis73 > g.nextalldatatime_dallas <;> simp [h]

/-- The events of a call of `readNewDallasTemp` are those of the probe loop run
with the flag `updatenow` of line 73. -/
theorem readNewDallasTemp_events (millis73 millis75 : Nat) (reads : Nat → ProbeRead)
    (g : DallasTimer) (ds : List dallasDataStruct) :
    (readNewDallasTemp millis73 millis75 reads g ds).2.2 =
      (dallasProbes (decide (millis73 > g.nextalldatatime_dallas)) reads 0 ds).2 := rfl

/-- C21 fails as stated: the timer has elapsed (`millis() = 40000 > 30000`), the
first probe reads its unchanged 20.0 and is published, the second probe reads
the offline value `-127` and nothing is published for it; the timer is
re-armed to `40000 + 1000 * 30`. -/
theorem C21_counterexample :
    (40000 : Nat) > 30000 ∧
      readNewDallasTemp 40000 40000
          (fun i => if i = 0 then ⟨20, 40800, 40800⟩ else ⟨-127, 40810, 40810⟩)
          ⟨30000, 30⟩ [⟨20, 1000, "28ff"⟩, ⟨21, 1000, "28aa"⟩] =
        (⟨70000, 30⟩, [⟨20, 40800, "28ff"⟩, ⟨21, 1000, "28aa"⟩],
          [DallasEvent.received "28ff" 20, DallasEvent.publish "28ff" 20,
            DallasEvent.offline "28aa"]) := by
  refine ⟨by decide, ?_⟩
  have h1 : dallasProbe true ⟨20, 40800, 40800⟩ ⟨20, 1000, "28ff"⟩ =
      (⟨20, 40800, "28ff"⟩,
        [DallasEvent.received "28ff" 20, DallasEvent.publish "28ff" 20]) := by
    have hok : dallasFiltered ⟨20, 40800, 40800⟩ ⟨20, 1000, "28ff"⟩ = false :=
      dallasFiltered_within_on_grid ⟨20, 40800, 40800⟩ ⟨20, 1000, "28ff"⟩
        IsDallasReading_20 IsDallasReading_20 (by
          dsimp only
          rw [sub_self, abs_zero]
          positivity)
    rw [dallasProbe_accepted true _ _ (by norm_num) hok]
    simp
  have h2 : dallasProbe true ⟨-127, 40810, 40810⟩ ⟨21, 1000, "28aa"⟩ =
      (⟨21, 1000, "28aa"⟩, [DallasEvent.offline "28aa"]) :=
    dallasProbe_offline true _ _ (by norm_num)
  simp [readNewDallasTemp, dallasProbes, h1, h2, uadd]

/-- C21 as amended: periodic full report.  In every call of `readNewDallasTemp`
in which the report-everything timer has elapsed
(`millis() > nextalldatatime_dallas` on line 73), the timer is re-armed to the
32-bit sum of the `millis()` reading of line 75 and the period
`1000 * updateAllDallasTime`, and a value is published for every probe whose
reading is accepted in that cycle, that is, is at least `-120.0` (line 80) and
is not filtered by the test of line 84, whether or not the value changed. -/
theorem C21_full_report (millis73 millis75 : Nat) (reads : Nat → ProbeRead) (g : DallasTimer)
    (ds : List dallasDataStruct) (helapsed : millis73 > g.nextalldatatime_dallas) :
    (readNewDallasTemp millis73 millis75 reads g ds).1.nextalldatatime_dallas =
        uadd millis75 (1000 * g.updateAllDallasTime) ∧
      ∀ (i : Nat) (hi : i < ds.length),
        (-120 ≤ (reads i).temp ∧ dallasFiltered (reads i) ds[i] = false) →
        DallasEvent.publish ds[i].address (reads i).temp ∈
          (readNewDallasTemp millis73 millis75 reads g ds).2.2 := by
  constructor
  · rw [readNewDallasTemp_timer, if_pos helapsed]
  · rintro i hi ⟨hs, hnf⟩
    rw [readNewDallasTemp_events, decide_eq_true helapsed]
    apply dallasProbes_events_mem true reads _ ds 0 i hi
    rw [Nat.zero_add, dallasProbe_accepted true (reads i) ds[i] (not_lt.mpr hs) hnf]
    simp

/-- Witness of C21 as amended: timer elapsed at 40000 ms, one probe reading its
unchanged 20.0: the value is published and the timer re-armed. -/
theorem C21_full_report_witness :
    (40000 : Nat) > 30000 ∧
      ((-120 : ℚ) ≤ 20 ∧ dallasFiltered ⟨20, 40800, 40800⟩ ⟨20, 1000, "28ff"⟩ = false) ∧
      (readNewDallasTemp 40000 40000 (fun _ => ⟨20, 40800, 40800⟩) ⟨30000, 30⟩
          [⟨20, 1000, "28ff"⟩]).1.nextalldatatime_dallas = uadd 40000 (1000 * 30) ∧
      DallasEvent.publish "28ff" 20 ∈
        (readNewDallasTemp 40000 40000 (fun _ => ⟨20, 40800, 40800⟩) ⟨30000, 30⟩
          [⟨20, 1000, "28ff"⟩]).2.2 :=
  have hacc : (-120 : ℚ) ≤ 20 ∧
      dallasFiltered ⟨20, 40800, 40800⟩ ⟨20, 1000, "28ff"⟩ = false :=
    ⟨by norm_num,
      dallasFiltered_within_on_grid ⟨20, 40800, 40800⟩ ⟨20, 1000, "28ff"⟩
        IsDallasReading_20 IsDallasReading_20 (by
          dsimp only
          rw [sub_self, abs_zero]
          positivity)⟩
  have h := C21_full_report 40000 40000 (fun _ => ⟨20, 40800, 40800⟩) ⟨30000, 30⟩
    [⟨20, 1000, "28ff"⟩] (by decide)
  ⟨by decide, hacc, h.1, h.2 0 (by decide) hacc⟩

/-! ## Claims on the regime threshold and on the divisor of the report step -/

/-- C22: regime threshold consistency.  For positive `ppkwh` and positive
`lowerPowerInterval`, the threshold of line 222,
`(3600000.0 / ppkwh) / lowerPowerInterval`, equals the power expression
`(3600000000.0 / interval) / ppkwh` of line 206 at
`interval = 1000 * lowerPowerInterval` (exact arithmetic); the channel is in
the standby regime exactly when its `watt` is strictly below that value; and
the `watt` the edge step stores for that interval is its integer part. -/
theorem C22_threshold_consistency (cfg : s0SettingsStruct) (ovf w : Nat)
    (hp : 0 < cfg.ppkwh) (hL : 0 < cfg.lowerPowerInterval) :
    ddiv (ddiv (some 3600000) cfg.ppkwh) cfg.lowerPowerInterval =
        ddiv (ddiv (some 3600000000) (1000 * cfg.lowerPowerInterval)) cfg.ppkwh ∧
      (inStandby cfg w = true ↔
        (w : ℚ) < 3600000000 / ((1000 * cfg.lowerPowerInterval : Nat) : ℚ) / (cfg.ppkwh : ℚ)) ∧
      wattOf ovf (1000 * cfg.lowerPowerInterval) cfg.ppkwh =
        3600000 / cfg.ppkwh / cfg.lowerPowerInterval := by
  have hp' : cfg.ppkwh ≠ 0 := Nat.pos_iff_ne_zero.mp hp
  have hL' : cfg.lowerPowerInterval ≠ 0 := Nat.pos_iff_ne_zero.mp hL
  have h1000 : 1000 * cfg.lowerPowerInterval ≠ 0 := by omega
  have hpq : (cfg.ppkwh : ℚ) ≠ 0 := by exact_mod_cast hp'
  have hLq : (cfg.lowerPowerInterval : ℚ) ≠ 0 := by exact_mod_cast hL'
  have hq : (3600000 : ℚ) / cfg.ppkwh / cfg.lowerPowerInterval =
      3600000000 / ((1000 * cfg.lowerPowerInterval : Nat) : ℚ) / (cfg.ppkwh : ℚ) := by
    push_cast
    field_simp
    ring
  refine ⟨?_, ?_, ?_⟩
  · simp only [ddiv, hp', hL', h1000, if_false]
    rw [hq]
  · simp only [inStandby, ddiv, hp', hL', if_false, dlt, decide_eq_true_eq]
    rw [hq]
  · rw [wattOf_eq ovf _ _ (by omega) hp, Nat.div_div_eq_div_mul, Nat.div_div_eq_div_mul]
    have h : 1000 * cfg.lowerPowerInterval * cfg.ppkwh =
        1000 * (cfg.ppkwh * cfg.lowerPowerInterval) := by ring
    rw [h]
    have h3 : (3600000000 : Nat) = 1000 * 3600000 := by decide
    rw [h3]
    exact @Nat.mul_div_mul_left 1000 3600000 (cfg.ppkwh * cfg.lowerPowerInterval) (by decide)

/-- Witness of C22: `ppkwh = 1000`, standby interval 60 s: the threshold is 60 W
and 59 W is in standby. -/
theorem C22_threshold_consistency_witness :
    0 < (1000 : Nat) ∧ 0 < (60 : Nat) ∧
      ddiv (ddiv (some 3600000) 1000) 60 = ddiv (ddiv (some 3600000000) (1000 * 60)) 1000 ∧
      (inStandby ⟨5, 1000, 60, false⟩ 59 = true ↔
        ((59 : Nat) : ℚ) < 3600000000 / ((1000 * 60 : Nat) : ℚ) / ((1000 : Nat) : ℚ)) ∧
      wattOf 0 (1000 * 60) 1000 = 3600000 / 1000 / 60 :=
  ⟨by decide, by decide,
    C22_threshold_consistency ⟨5, 1000, 60, false⟩ 0 59 (by decide) (by decide)⟩

/-- The ceiling is the watt formula at the divisor `lastePulseInterval`. -/
theorem calcMaxWatt_eq (cfg : s0SettingsStruct) (ovf now : Nat) (d : s0DataStruct) :
    calcMaxWatt cfg ovf now d = wattOf ovf (lastePulseInterval now d) cfg.ppkwh := rfl

/-- C23, the code at the failing inputs (`ppkwh = 1000`, standby interval 60 s).
After boot at 0 ms the first edge, at 5000 ms, is reported at 5001 ms and leaves
the last edge at 5000 ms and `nextReport = 65001`.  In the tick at 10100 ms an
edge latched in the millisecond of the tick is accepted, forces the report of
that tick, and the divisor `lastePulseInterval` is 0.  An edge latched at
10101 ms, after `millis()` was sampled, is accepted with 705 W, forces the
report, the divisor wraps to `2^32 - 1`, the ceiling is 0 and the report
publishes 0 W. -/
theorem C23_report_divisor_unguarded :
    s0Channel ⟨5, 1000, 60, false⟩ 0 5001 5000 (s0Initial 0) =
      (⟨0, 0, 5000, 65001⟩, some ⟨some 1, 0⟩) ∧
    ((s0Edge ⟨5, 1000, 60, false⟩ 0 10100 10100 ⟨0, 0, 5000, 65001⟩).lastPulse = 10100 ∧
      (s0Channel ⟨5, 1000, 60, false⟩ 0 10100 10100 ⟨0, 0, 5000, 65001⟩).2.isSome = true ∧
      lastePulseInterval 10100
        (s0Edge ⟨5, 1000, 60, false⟩ 0 10100 10100 ⟨0, 0, 5000, 65001⟩) = 0) ∧
    ((s0Edge ⟨5, 1000, 60, false⟩ 0 10100 10101 ⟨0, 0, 5000, 65001⟩).watt = 705 ∧
      lastePulseInterval 10100
        (s0Edge ⟨5, 1000, 60, false⟩ 0 10100 10101 ⟨0, 0, 5000, 65001⟩) = 4294967295 ∧
      calcMaxWatt ⟨5, 1000, 60, false⟩ 0 10100
        (s0Edge ⟨5, 1000, 60, false⟩ 0 10100 10101 ⟨0, 0, 5000, 65001⟩) = 0 ∧
      s0Channel ⟨5, 1000, 60, false⟩ 0 10100 10101 ⟨0, 0, 5000, 65001⟩ =
        (⟨0, 0, 10101, 15100⟩, some ⟨some 1, 0⟩)) := by
  have hw0 : wattOf 0 5100 1000 = 705 := by
    rw [wattOf_eq 0 5100 1000 (by decide) (by decide)]
  have hw1 : wattOf 0 5101 1000 = 705 := by
    rw [wattOf_eq 0 5101 1000 (by decide) (by decide)]
  have hw2 : wattOf 0 4294967295 1000 = 0 := by
    rw [wattOf_eq 0 4294967295 1000 (by decide) (by decide)]
  have he0 : s0Edge ⟨5, 1000, 60, false⟩ 0 10100 10100 ⟨0, 0, 5000, 65001⟩ =
      ⟨1, 705, 10100, 0⟩ := by
    simp [s0Edge, usub, MINREPORTEDS0TIME, hw0]
  have he1 : s0Edge ⟨5, 1000, 60, false⟩ 0 10100 10101 ⟨0, 0, 5000, 65001⟩ =
      ⟨1, 705, 10101, 0⟩ := by
    simp [s0Edge, usub, MINREPORTEDS0TIME, hw1]
  have hact : inStandby ⟨5, 1000, 60, false⟩ 705 = false := by
    rw [← Bool.not_eq_true, inStandby_iff _ _ (by decide) (by decide)]
    decide
  have hc : calcMaxWatt ⟨5, 1000, 60, false⟩ 0 10100 ⟨1, 705, 10101, 0⟩ = 0 := by
    rw [calcMaxWatt_eq]
    exact hw2
  refine ⟨?_, ⟨?_, ?_, ?_⟩, ?_, ?_, ?_, ?_⟩
  · simp [s0Channel, s0Report, s0Edge, s0Initial, usub, uadd, MINREPORTEDS0TIME, inStandby,
      dlt, ddiv, dmul]
  · rw [he0]
  · unfold s0Channel
    rw [s0Report_some_iff, he0]
    decide
  · rw [he0]
    decide
  · rw [he1]
  · rw [he1]
    decide
  · rw [he1]
    exact hc
  · unfold s0Channel
    rw [he1]
    simp [s0Report, hact, hc, uadd, MINREPORTEDS0TIME, dmul, ddiv]

end HeishaMon
